import Mathlib

/-!
Verification of the RC5 repository (`mintlayer/rc5_test`).

This file shallowly embeds the repository's Rust sources over `Nat`:
machine words of width `w` are naturals kept below `2 ^ w`, with wrapping
taken explicitly via `% 2 ^ w`; Rust panics are modelled by `Option`
(`none` = panic) and recoverable errors by `Except`.

Embedded components:
* `Cypher` — `src/rc5/cypher.rs` (the fixed RC5-32 implementation `Rc5`);
* `WordMod` — `src/word.rs` (the tagged-union `Word` with widths 8..128);
* `Generic` — `src/rc5.rs` (the generic engine `RC5<T>` over `Word<T>`);
* `BigNum` — `src/utils.rs` (decimal-string magic-constant derivation).
-/

set_option maxRecDepth 100000
set_option exponentiation.threshold 2000

/-- `utils::div_ceil` from `src/utils.rs`: `(numerator + (divisor - 1)) / divisor`. -/
def divCeil (numerator divisor : Nat) : Nat :=
  (numerator + (divisor - 1)) / divisor

namespace Generic

/-- Rotate-left of a `w`-bit word by `y`: `impl Shl<Self> for Word<T>` in
`src/rc5.rs`. The amount is `rhs % word_size`; the left shift on `T` drops
bits above the word (hence `% 2 ^ w`); the complementary right shift amount
is `(word_size - rhs) % word_size`. -/
def rotl (w x y : Nat) : Nat :=
  ((x <<< (y % w)) % 2 ^ w) ||| (x >>> ((w - y % w) % w))

/-- Rotate-right of a `w`-bit word by `y`: `impl Shr for Word<T>` in
`src/rc5.rs`. -/
def rotr (w x y : Nat) : Nat :=
  (x >>> (y % w)) ||| ((x <<< ((w - y % w) % w)) % 2 ^ w)

end Generic

/-- `Rc5Error` from `src/rc5/cypher.rs`. -/
inductive Rc5Error
  | InvalidKeyLen
  | BufferOutOfBounds
deriving DecidableEq, Repr

/-- `Rc5Version` from `src/rc5/cypher.rs`. -/
inductive Rc5Version
  | Rc5_32_12_16
  | Rc5_32_16_16
deriving DecidableEq, Repr

namespace Cypher

/-- `u32::wrapping_add` on 32-bit word values. -/
def wrapAdd (a b : Nat) : Nat := (a + b) % 2 ^ 32

/-- `u32::wrapping_sub` on 32-bit word values (`a`, `b` are `u32`,
so `b ≤ 2 ^ 32` and the `Nat` subtraction below is exact). -/
def wrapSub (a b : Nat) : Nat := (2 ^ 32 + a - b) % 2 ^ 32

/-- `Rc5::rotate_left` from `src/rc5/cypher.rs`:
`x.wrapping_shl(y & (word_size - 1)) | x.wrapping_shr(word_size - (y & (word_size - 1)))`
at `word_size = 32`. `wrapping_shl`/`wrapping_shr` reduce their shift amount
modulo 32 (the left amount `y &&& 31` already is below 32) and drop bits
shifted out of the word. -/
def rotateLeft (x y : Nat) : Nat :=
  ((x <<< (y &&& (32 - 1))) % 2 ^ 32) ||| (x >>> ((32 - (y &&& (32 - 1))) % 32))

/-- `Rc5::rotate_right` from `src/rc5/cypher.rs`. -/
def rotateRight (x y : Nat) : Nat :=
  (x >>> (y &&& (32 - 1))) ||| ((x <<< ((32 - (y &&& (32 - 1))) % 32)) % 2 ^ 32)

/-- The struct `Rc5` from `src/rc5/cypher.rs`. -/
structure Rc5 where
  secretKeyTable : List Nat
  wordSize : Nat
  numRounds : Nat
  keyLen : Nat
  magicConstantP : Nat
  magicConstantQ : Nat
  bytesPerWord : Nat
deriving DecidableEq, Repr

/-- The initial table of `expand_key`: `S[0] = P`, `S[i] = S[i-1].wrapping_add(Q)`. -/
def sVal (p q : Nat) : Nat → Nat
  | 0 => p
  | i + 1 => wrapAdd (sVal p q i) q

/-- The table `secret_key_table` right after its initialization loop in
`expand_key`: entry `i` of `num_words` entries is `sVal p q i`. -/
def sInit (p q numWords : Nat) : List Nat :=
  (List.range numWords).map (sVal p q)

/-- One pass structure of the key-mixing loop of `Rc5::expand_key`
(`src/rc5/cypher.rs` lines 86-97), runs `count` iterations over the state
`(secret_key_table, l, i, j, a, b)`. -/
def mixLoop (numWords numBlocks : Nat) :
    Nat → List Nat × List Nat × Nat × Nat × Nat × Nat →
    List Nat × List Nat × Nat × Nat × Nat × Nat
  | 0, st => st
  | n + 1, (s, l, i, j, a, b) =>
    let s1 := s.set i (rotateLeft (wrapAdd (s.getD i 0) (wrapAdd a b)) 3)
    let a1 := s1.getD i 0
    let ab := wrapAdd a1 b
    let l1 := l.set j (rotateLeft (wrapAdd (l.getD j 0) ab) ab)
    let b1 := l1.getD j 0
    mixLoop numWords numBlocks n (s1, l1, (i + 1) % numWords, (j + 1) % numBlocks, a1, b1)

/-- `Rc5::expand_key` with the iteration count of the mixing loop made an
explicit parameter (the source computes it inline as
`max(num_words, num_blocks) * 3`; see `expandKey`). The secret key is loaded
into `l` (a vector of `key_len - 1` zeroed words) from the last byte to the
first by `l[i/4] = (l[i/4].checked_shl(8).unwrap_or(0)).wrapping_add(b)`;
`checked_shl 8` on a `u32` always succeeds and drops the high bits. -/
def expandKeyIters (key : List Nat) (numRounds keyLen p q count : Nat) : List Nat :=
  let bytesPerWord := 4
  let numBlocks := max keyLen 1 / bytesPerWord
  let l0 := List.replicate (keyLen - 1) 0
  let l := key.enum.reverse.foldl
    (fun l ib =>
      l.set (ib.1 / bytesPerWord)
        (wrapAdd ((l.getD (ib.1 / bytesPerWord) 0) <<< 8 % 2 ^ 32) ib.2)) l0
  let numWords := (numRounds + 1) * 2
  (mixLoop numWords numBlocks count (sInit p q numWords, l, 0, 0, 0, 0)).1

/-- `Rc5::expand_key` from `src/rc5/cypher.rs`: the mixing loop runs
`max(num_words, num_blocks) * 3` times. -/
def expandKey (key : List Nat) (numRounds keyLen p q : Nat) : List Nat :=
  let numBlocks := max keyLen 1 / 4
  let numWords := (numRounds + 1) * 2
  expandKeyIters key numRounds keyLen p q (max numWords numBlocks * 3)

/-- `Rc5::new` from `src/rc5/cypher.rs`. -/
def new (key : List Nat) (version : Rc5Version) : Except Rc5Error Rc5 :=
  let cfg : Nat × Nat × Nat × Nat × Nat :=
    match version with
    | .Rc5_32_12_16 => (12, 32, 16, 0xB7E15163, 0x9E3779B9)
    | .Rc5_32_16_16 => (16, 32, 16, 0xB7E15163, 0x9E3779B9)
  let numRounds := cfg.1
  let wordSize := cfg.2.1
  let keyLen := cfg.2.2.1
  let p := cfg.2.2.2.1
  let q := cfg.2.2.2.2
  if key.length ≠ keyLen then .error .InvalidKeyLen
  else
    .ok { secretKeyTable := expandKey key numRounds keyLen p q
          wordSize := wordSize
          numRounds := numRounds
          keyLen := keyLen
          magicConstantP := p
          magicConstantQ := q
          bytesPerWord := wordSize / 8 }

/-- `u32::from_le_bytes` on a 4-byte chunk. -/
def fromLeBytes (bs : List Nat) : Nat :=
  bs.getD 0 0 + 2 ^ 8 * bs.getD 1 0 + 2 ^ 16 * bs.getD 2 0 + 2 ^ 24 * bs.getD 3 0

/-- `Rc5::le_bytes_to_words` from `src/rc5/cypher.rs`. The source only guards
`block.len() < self.bytes_per_word`; it then converts `block[..bpw]` and
`block[bpw..]` with `try_into().unwrap()`, and the second `unwrap` panics
(modelled as `none`) unless the block is exactly `2 * bytes_per_word` bytes. -/
def leBytesToWords (bytesPerWord : Nat) (block : List Nat) :
    Option (Except Rc5Error (Nat × Nat)) :=
  if block.length < bytesPerWord then some (.error .BufferOutOfBounds)
  else if block.length = 2 * bytesPerWord then
    some (.ok (fromLeBytes (block.take bytesPerWord), fromLeBytes (block.drop bytesPerWord)))
  else none

/-- `u32::to_le_bytes` of a word value. -/
def toLeBytes (x : Nat) : List Nat :=
  [x % 2 ^ 8, x / 2 ^ 8 % 2 ^ 8, x / 2 ^ 16 % 2 ^ 8, x / 2 ^ 24 % 2 ^ 8]

/-- `Rc5::words_to_le_bytes` from `src/rc5/cypher.rs`. -/
def wordsToLeBytes (a b : Nat) : List Nat :=
  toLeBytes a ++ toLeBytes b

/-- The encryption round loop of `Rc5::encrypt`
(`for i in 1..=num_rounds`): `encLoop S r` applies rounds `1..=r` in order. -/
def encLoop (s : List Nat) : Nat → Nat × Nat → Nat × Nat
  | 0, ab => ab
  | i + 1, ab =>
    let ab0 := encLoop s i ab
    let a1 := wrapAdd (rotateLeft (ab0.1 ^^^ ab0.2) ab0.2) (s.getD (2 * (i + 1)) 0)
    let b1 := wrapAdd (rotateLeft (ab0.2 ^^^ a1) a1) (s.getD (2 * (i + 1) + 1) 0)
    (a1, b1)

/-- `Rc5::encrypt` from `src/rc5/cypher.rs`. -/
def encrypt (rc : Rc5) (plaintext : List Nat) : Option (Except Rc5Error (List Nat)) :=
  match leBytesToWords rc.bytesPerWord plaintext with
  | none => none
  | some (.error e) => some (.error e)
  | some (.ok w01) =>
    let a0 := wrapAdd w01.1 (rc.secretKeyTable.getD 0 0)
    let b0 := wrapAdd w01.2 (rc.secretKeyTable.getD 1 0)
    let ab := encLoop rc.secretKeyTable rc.numRounds (a0, b0)
    some (.ok (wordsToLeBytes ab.1 ab.2))

/-- The decryption round loop of `Rc5::decrypt`
(`for i in (1..=num_rounds).rev()`): `decLoop S r` applies rounds `r` down to `1`. -/
def decLoop (s : List Nat) : Nat → Nat × Nat → Nat × Nat
  | 0, ab => ab
  | i + 1, ab =>
    let b1 := rotateRight (wrapSub ab.2 (s.getD (2 * (i + 1) + 1) 0)) ab.1 ^^^ ab.1
    let a1 := rotateRight (wrapSub ab.1 (s.getD (2 * (i + 1)) 0)) b1 ^^^ b1
    decLoop s i (a1, b1)

/-- `Rc5::decrypt` from `src/rc5/cypher.rs`. -/
def decrypt (rc : Rc5) (ciphertext : List Nat) : Option (Except Rc5Error (List Nat)) :=
  match leBytesToWords rc.bytesPerWord ciphertext with
  | none => none
  | some (.error e) => some (.error e)
  | some (.ok w01) =>
    let ab := decLoop rc.secretKeyTable rc.numRounds (w01.1, w01.2)
    let b2 := wrapSub ab.2 (rc.secretKeyTable.getD 1 0)
    let a2 := wrapSub ab.1 (rc.secretKeyTable.getD 0 0)
    some (.ok (wordsToLeBytes a2 b2))

end Cypher

/-- The largest value of `LargestType = u128` from `src/word.rs`
(`u128::MAX`), against which the overflowing intermediate computations of
the word arithmetic must be measured. -/
def u128Max : Nat := 2 ^ 128 - 1

namespace WordMod

/-- The word widths accepted by `WordType::new` in `src/word.rs`
(any other width panics with "word size is not supported"). -/
def supportedWidths : List Nat := [8, 16, 32, 64, 128]

/-- `impl Shl<Word> for Word` from `src/word.rs` (rotate-left). All
intermediate arithmetic happens on `LargestType = u128` (`% 2 ^ 128`);
the shift amount is `rhs_value % word_size`, the complementary right-shift
amount `(word_size - shift_amount) % word_size`, and `Word::new` truncates
the result to the width (`% 2 ^ w`). -/
def shl (w v y : Nat) : Nat :=
  (((v <<< (y % w)) % 2 ^ 128) ||| (v >>> ((w - y % w) % w))) % 2 ^ w

/-- `impl Shr<Word> for Word` from `src/word.rs` (rotate-right). -/
def shr (w v y : Nat) : Nat :=
  ((v >>> (y % w)) ||| ((v <<< ((w - y % w) % w)) % 2 ^ 128)) % 2 ^ w

/-- `impl Add for Word` from `src/word.rs`: the code computes
`self.data.max_val() + 1` on `u128`; for the 128-bit variant
`max_val() = u128::MAX` and the `+ 1` overflows — a panic in debug builds,
and in release the wrapped `0` makes the following `% 0` panic — modelled
as `none`. Otherwise the value is `(self_value + rhs_value) % (max_val + 1)`
(the operands are in-width, so their `u128` sum does not overflow). -/
def add (w a b : Nat) : Option Nat :=
  if 2 ^ w ≤ u128Max then some ((a + b) % 2 ^ w) else none

/-- `impl Sub for Word` from `src/word.rs`: both operands are first reduced
`% (max_val + 1)` — which overflows and panics for the 128-bit variant just
as in `add` — then the result is `self - rhs` if `self > rhs` and
`max_val - rhs + self + 1` otherwise, truncated by `Word::new`. -/
def sub (w a b : Nat) : Option Nat :=
  if 2 ^ w ≤ u128Max then
    let a1 := a % 2 ^ w
    let b1 := b % 2 ^ w
    some ((if b1 < a1 then a1 - b1 else 2 ^ w - 1 - b1 + a1 + 1) % 2 ^ w)
  else none

end WordMod

namespace Generic

/-- `impl Add for Word<T>` from `src/rc5.rs`: the code computes
`max_val = 2_u128.pow(word_size)`, which overflows `u128` for
`word_size = 128` (debug: overflow panic; release: wraps to `0` and the
subsequent `% 0` panics) — modelled as `none`. Otherwise the operands are
cast to `u128`, `wrapping_add`ed, and reduced `% max_val`. -/
def addChecked (w a b : Nat) : Option Nat :=
  if 2 ^ w ≤ u128Max then some (((a + b) % 2 ^ 128) % 2 ^ w) else none

/-- `impl Sub for Word<T>` from `src/rc5.rs`, with the same overflowing
`2_u128.pow(word_size)` as `addChecked`; the defined case is
`wrapping_sub` on `u128` (`b` is an in-width word value, so `b ≤ 2 ^ 128`
and the `Nat` subtraction below is exact), reduced `% max_val`. -/
def subChecked (w a b : Nat) : Option Nat :=
  if 2 ^ w ≤ u128Max then some (((2 ^ 128 + a - b) % 2 ^ 128) % 2 ^ w) else none

/-- The value computed by `Word<T>` addition in its defined cases
(`word_size < 128`): used to state the engine over total functions. -/
def wAdd (w a b : Nat) : Nat := ((a + b) % 2 ^ 128) % 2 ^ w

/-- The value computed by `Word<T>` subtraction in its defined cases. -/
def wSub (w a b : Nat) : Nat := ((2 ^ 128 + a - b) % 2 ^ 128) % 2 ^ w

/-- The per-word byte counts of the generic engine:
`std::mem::size_of::<T>()` for the `WordType` instances
`u16`, `u32`, `u64`, `u128` declared in `src/rc5.rs`. -/
def supportedBytesPerWord : List Nat := [2, 4, 8, 16]

/-- The loop of `RC5::parse` from `src/rc5.rs`, recursing over the reversed
input (`for byte in input.iter().rev()`): `j` counts down from `input.len()`
(always the number of bytes still to process), `i` counts up from 0, and each
byte is OR-ed into `ret[j / num_bytes_per_word]` shifted left by
`8 * (i % num_bytes_per_word)` (the plain `Shl<u8>` on `T` truncates at the
word width `w`). -/
def parseLoop (nb w : Nat) : List Nat → List Nat → Nat → Nat → List Nat
  | [], ret, _, _ => ret
  | b :: rest, ret, i, j =>
    let j1 := j - 1
    parseLoop nb w rest
      (ret.set (j1 / nb) ((ret.getD (j1 / nb) 0) ||| ((b <<< (8 * (i % nb))) % 2 ^ w)))
      (i + 1) j1

/-- `RC5::parse` from `src/rc5.rs`: allocates
`div_ceil(input.len(), num_bytes_per_word)` zeroed words and fills them via
the reverse iteration of `parseLoop`. -/
def parse (nb w : Nat) (input : List Nat) : List Nat :=
  parseLoop nb w input.reverse (List.replicate (divCeil input.length nb) 0) 0 input.length

/-- The bytes `RC5::serialize` (`src/rc5.rs`) emits for one word: for `j` in
`(0..num_bytes_per_word).rev()`, the byte `(word >> 8 * j) & 0xFF` — most
significant byte first. -/
def serializeWord (nb x : Nat) : List Nat :=
  (List.range nb).reverse.map fun j => (x >>> (8 * j)) &&& 0xFF

/-- `RC5::serialize` from `src/rc5.rs`: the preallocated output buffer
receives, word by word in order, the `num_bytes_per_word` bytes of
`serializeWord`. -/
def serialize (nb : Nat) (output : List Nat) : List Nat :=
  (output.map (serializeWord nb)).flatten

/-- The value accumulated in one target word while `parseLoop` consumes a
(reversed) chunk of bytes starting at byte counter `i`. -/
def orAccum (nb w : Nat) : Nat → List Nat → Nat → Nat
  | v, [], _ => v
  | v, b :: rest, i => orAccum nb w (v ||| ((b <<< (8 * (i % nb))) % 2 ^ w)) rest (i + 1)

/-- The word value `RC5::parse` produces for one complete `nb`-byte chunk. -/
def parsedWord (nb w : Nat) (chunk : List Nat) : Nat :=
  orAccum nb w 0 chunk.reverse 0

/-- Little-endian value of a byte sequence (characterization device). -/
def leVal : List Nat → Nat
  | [] => 0
  | b :: rest => b + 2 ^ 8 * leVal rest

/-- The `n` little-endian base-256 digits of `x` (characterization device). -/
def leDigits : Nat → Nat → List Nat
  | 0, _ => []
  | n + 1, x => x % 2 ^ 8 :: leDigits n (x / 2 ^ 8)

/-- Big-endian value of a byte sequence — the byte order the generic
engine's `parse` actually uses within each word. -/
def beWord (chunk : List Nat) : Nat :=
  chunk.foldl (fun acc b => acc * 2 ^ 8 + b) 0

end Generic

namespace Generic

/-- The key-bytes-to-words loop of `RC5::key_expansion` (`src/rc5.rs`):
`L[i / nb] = (L[i / nb] << 8) + secret_key[i]` for `i` from `key_size - 1`
down to 0, starting from `div_ceil(key_size, nb)` zeroed words; `<< 8_u8`
is the plain `Shl<u8>` (truncating at the word width), `+` the wrapping
`Word` addition. -/
def keyToWords (nb w : Nat) (key : List Nat) : List Nat :=
  (List.range key.length).reverse.foldl
    (fun l i =>
      l.set (i / nb) (wAdd w (((l.getD (i / nb) 0) <<< 8) % 2 ^ w) (key.getD i 0)))
    (List.replicate (divCeil key.length nb) 0)

/-- The `S` initialization of `RC5::key_expansion`: `S[0] = P`,
`S[i] = S[i-1] + Q` (wrapping `Word` addition). -/
def sValG (w p q : Nat) : Nat → Nat
  | 0 => p
  | i + 1 => wAdd w (sValG w p q i) q

/-- The table `S` right after its initialization loop: entry `i` of `t`
entries is `sValG w p q i`. -/
def sInitG (w p q t : Nat) : List Nat :=
  (List.range t).map (sValG w p q)

/-- The key-mixing loop of `RC5::key_expansion` (`src/rc5.rs` lines
259-274), run for `count` iterations over `(S, L, i, j, A, B)`:
`S[i] = (S[i] + (A + B)) << 3; A = S[i]; L[j] = (L[j] + (A + B)) << (A + B);
B = L[j]; i = (i + 1) % t; j = (j + 1) % num_words` — the `<<` on `Word`s
is the rotate `rotl`. -/
def mixLoopG (w t c : Nat) :
    Nat → List Nat × List Nat × Nat × Nat × Nat × Nat →
    List Nat × List Nat × Nat × Nat × Nat × Nat
  | 0, st => st
  | n + 1, (s, l, i, j, a, b) =>
    let s1 := s.set i (rotl w (wAdd w (s.getD i 0) (wAdd w a b)) 3)
    let a1 := s1.getD i 0
    let l1 := l.set j (rotl w (wAdd w (l.getD j 0) (wAdd w a1 b)) (wAdd w a1 b))
    let b1 := l1.getD j 0
    mixLoopG w t c n (s1, l1, (i + 1) % t, (j + 1) % c, a1, b1)

/-- `RC5::key_expansion` from `src/rc5.rs` with the iteration count of the
mixing loop made an explicit parameter (the source sets
`num_iterations = 3 * t` inline; see `keyExpansion`). -/
def keyExpansionIters (w r p q : Nat) (key : List Nat) (count : Nat) : List Nat :=
  let nb := w / 8
  let numWords := divCeil key.length nb
  let l := keyToWords nb w key
  let t := 2 * (r + 1)
  (mixLoopG w t numWords count (sInitG w p q t, l, 0, 0, 0, 0)).1

/-- `RC5::key_expansion` from `src/rc5.rs`: the mixing loop runs
`num_iterations = 3 * t` times, independently of `num_words`. -/
def keyExpansion (w r p q : Nat) (key : List Nat) : List Nat :=
  keyExpansionIters w r p q key (3 * (2 * (r + 1)))

/-- The encryption round loop of `RC5::encrypt` (`for i in 1..=num_rounds`):
`A = ((A ^ B) << B) + S[2i]; B = ((B ^ A) << A) + S[2i+1]`. -/
def encLoopG (w : Nat) (s : List Nat) : Nat → Nat × Nat → Nat × Nat
  | 0, ab => ab
  | i + 1, ab =>
    let ab0 := encLoopG w s i ab
    let a1 := wAdd w (rotl w (ab0.1 ^^^ ab0.2) ab0.2) (s.getD (2 * (i + 1)) 0)
    let b1 := wAdd w (rotl w (ab0.2 ^^^ a1) a1) (s.getD (2 * (i + 1) + 1) 0)
    (a1, b1)

/-- `RC5::encrypt` from `src/rc5.rs`: expands the key, parses the input
into words, runs `A = input[0] + S[0]; B = input[1] + S[1]`, the round
loop, and serializes `[A, B]`. -/
def encrypt (w r p q : Nat) (key input : List Nat) : List Nat :=
  let nb := w / 8
  let s := keyExpansion w r p q key
  let inp := parse nb w input
  let a := wAdd w (inp.getD 0 0) (s.getD 0 0)
  let b := wAdd w (inp.getD 1 0) (s.getD 1 0)
  let ab := encLoopG w s r (a, b)
  serialize nb [ab.1, ab.2]

/-- The decryption round loop of `RC5::decrypt`
(`for i in (1..=num_rounds).rev()`):
`B = ((B - S[2i+1]) >> A) ^ A; A = ((A - S[2i]) >> B) ^ B`. -/
def decLoopG (w : Nat) (s : List Nat) : Nat → Nat × Nat → Nat × Nat
  | 0, ab => ab
  | i + 1, ab =>
    let b1 := rotr w (wSub w ab.2 (s.getD (2 * (i + 1) + 1) 0)) ab.1 ^^^ ab.1
    let a1 := rotr w (wSub w ab.1 (s.getD (2 * (i + 1)) 0)) b1 ^^^ b1
    decLoopG w s i (a1, b1)

/-- `RC5::decrypt` from `src/rc5.rs`: expands the key, parses the input,
runs the reverse round loop and serializes `[A - S[0], B - S[1]]`. -/
def decrypt (w r p q : Nat) (key input : List Nat) : List Nat :=
  let nb := w / 8
  let s := keyExpansion w r p q key
  let inp := parse nb w input
  let ab := decLoopG w s r (inp.getD 0 0, inp.getD 1 0)
  serialize nb [wSub w ab.1 (s.getD 0 0), wSub w ab.2 (s.getD 1 0)]

end Generic


namespace BigNum

/-- The ASCII codes of a string: a `BigNum` (`src/utils.rs`) is a Rust
`String` of decimal digit characters with at most one decimal point,
modelled here as the list of its byte values. -/
def ascii (s : String) : List Nat :=
  s.data.map Char.toNat

/-- The decimal expansion of `e - 2` hard-coded in
`BigNum::calc_magic_constants` (`src/utils.rs`). -/
def eulerMinus2 : String :=
  "0.7182818284590452353602874713526624977572470936999595749669676277240766303535475945713821785251664274274663919320030599218174135966290435729003342952605956307381323286279434907632338298807531952510190115738341879307021540891499348841675092447614606680822648001684774118537423454424371075390777449920695517027618386062613313845830007520449338265602976067371132007093287091274437470472306969772093101416928368190255151086574637721112523897844250569536967707854499699679468644549059879316368892300987931277361782154249992295763514822082698951936680331825288693984964651058209392398294887933203625094431173012381970684161403970198376793206832823764648042953118023287825098194558153017567173613320698112509961818815930416903515988885193458072738667385894228792284998920868058257492796104841984443634632449684875602336248270419786232090021609"

/-- The decimal expansion of `golden_ratio - 1` hard-coded in
`BigNum::calc_magic_constants` (`src/utils.rs`). -/
def goldenRatioMinus1 : String :=
  "0.6180339887498948482045868343656381177203091798057628621354486227052604628189024497072072041893911374847540880753868917521266338622235369317931800607667263544333890865959395829056383226613199282902678806752087668925017116962070322210432162695486262963136144381497587012203408058879544547492461856953648644492410443207713449470495658467885098743394422125448770664780915884607499887124007652170575179788341662562494075890697040002812104276217711177780531531714101170466659914669798731761356006708748071013179523689427521948435305678300228785699782977834784587822891109762500302696156170025046433824377648610283831268330372429267526311653392473167111211588186385133162038400522216579128667529465490681131715993432359734949850904094762132229810172610705961164562990981629055520852479035240602017279974717534277759277862561943208275051312181562"

/-- `odds_to_one` from `BigNum::convert_to_binary` applied to the whole
decimal string: 1 when it ends with an odd digit character. -/
def oddsToOne (s : List Nat) : Nat :=
  if s.getLast? = some 49 ∨ s.getLast? = some 51 ∨ s.getLast? = some 53 ∨
      s.getLast? = some 55 ∨ s.getLast? = some 57 then 1 else 0

/-- `odds_to_one(&format!("{}", ch))` from `div_by_two`: the source formats
the BYTE value `ch` in decimal and checks whether that string ends in an odd
digit, which holds exactly when `ch` is odd (the ASCII code `48 + d` of a
digit `d` has the same parity as `d`). -/
def byteOdd (ch : Nat) : Nat :=
  ch % 2

/-- The character loop of `div_by_two` (`src/utils.rs`): each digit becomes
`(ch - b'0') / 2 + add` (rendered as a digit character again), and `add`
becomes 5 when the digit just consumed was odd. -/
def divByTwoAux (add : Nat) : List Nat → List Nat
  | [] => []
  | ch :: rest => ((ch - 48) / 2 + add + 48) :: divByTwoAux (byteOdd ch * 5) rest

/-- `div_by_two` from `BigNum::convert_to_binary`: divide the digit string
by two, then strip a single leading `'0'` unless the string is exactly "0". -/
def divByTwo (s : List Nat) : List Nat :=
  let newS := divByTwoAux 0 s
  if newS ≠ [48] ∧ newS.head? = some 48 then newS.tail else newS

/-- The `while d != "0"` loop of `BigNum::convert_to_binary`, on fuel: each
pass prepends the parity bit character and halves `d`. The source loop
terminates because halving reaches "0"; the fuel passed by
`convertToBinary` (four times the digit count plus eight) exceeds the
bit-length of any value with that many decimal digits. -/
def convertToBinaryAux : Nat → List Nat → List Nat → List Nat
  | 0, _, acc => acc
  | fuel + 1, d, acc =>
    if d = [48] then acc
    else convertToBinaryAux fuel (divByTwo d) ((oddsToOne d + 48) :: acc)

/-- `BigNum::convert_to_binary` from `src/utils.rs`. -/
def convertToBinary (decimal : List Nat) : List Nat :=
  if decimal = [48] then [48]
  else convertToBinaryAux (4 * decimal.length + 8) decimal []

/-- `BigNum::binary_odd` from `src/utils.rs`: force the last character of a
binary string to `'1'`. -/
def binaryOdd (binary : List Nat) : List Nat :=
  if binary.length > 0 then binary.dropLast ++ [49] else binary

/-- The nibble table of `BigNum::convert_binary_to_hex`. -/
def toHexDigit (chunk : List Nat) : List Nat :=
  match chunk with
  | [48, 48, 48, 48] => [48]
  | [48, 48, 48, 49] => [49]
  | [48, 48, 49, 48] => [50]
  | [48, 48, 49, 49] => [51]
  | [48, 49, 48, 48] => [52]
  | [48, 49, 48, 49] => [53]
  | [48, 49, 49, 48] => [54]
  | [48, 49, 49, 49] => [55]
  | [49, 48, 48, 48] => [56]
  | [49, 48, 48, 49] => [57]
  | [49, 48, 49, 48] => [65]
  | [49, 48, 49, 49] => [66]
  | [49, 49, 48, 48] => [67]
  | [49, 49, 48, 49] => [68]
  | [49, 49, 49, 48] => [69]
  | [49, 49, 49, 49] => [70]
  | _ => [101, 114, 114, 111, 114]

/-- The chunking loop of `BigNum::convert_binary_to_hex`
(`for w in (0..binary.len()).step_by(4)`). -/
def convertBinaryToHexAux : List Nat → List Nat
  | c1 :: c2 :: c3 :: c4 :: rest => toHexDigit [c1, c2, c3, c4] ++ convertBinaryToHexAux rest
  | _ => []

/-- `BigNum::convert_binary_to_hex` from `src/utils.rs`; the source asserts
`binary.len() % 4 == 0` (a panic, modelled as `none`). -/
def convertBinaryToHex (binary : List Nat) : Option (List Nat) :=
  if binary.length % 4 = 0 then some (convertBinaryToHexAux binary) else none

/-- `BigNum::truncate` from `src/utils.rs`: the characters before the first
`'.'` (the integer part). -/
def truncate (num : List Nat) : List Nat :=
  num.takeWhile (fun c => c ≠ 46)

/-- The inner loop of `BigNum::multiply` (`for j in (0..len2).rev()`) for
one source digit `n1`, operating on the window of the little-endian result
buffer starting at the current position `i_n1`: each multiplier digit
updates `result[i_n1 + i_n2] = (n1 * n2 + result[i_n1 + i_n2] + carry) %% 10`
with `carry = partial / 10`, and the trailing
`if carry > 0 { result[i_n1 + i_n2] += carry }` lands one slot past the
window. The source writes through indices into the preallocated buffer;
since `i_n1` advances by exactly one per digit, the buffer is threaded here
as the in-order list of its not-yet-final slots. -/
def mulDigit (n1 : Nat) : List Nat → Nat → List Nat → List Nat
  | [], carry, b :: rest => (b + carry) :: rest
  | [], _, [] => []
  | n2 :: n2rest, carry, b :: rest =>
    (((n1 * (n2 - 48) + b + carry) % 10)) ::
      mulDigit n1 n2rest ((n1 * (n2 - 48) + b + carry) / 10) rest
  | _ :: _, _, [] => []

/-- The outer loop of `BigNum::multiply` (`for i in (0..len1).rev()`),
walking the reversed `num1`: a `'.'` records `dot_index = len1 - i - 1`
(which is the running counter `k` over the reversed string) and moves on
without advancing `i_n1`; a digit multiplies into the current window, after
which its slot `result[i_n1]` is final and `i_n1` advances. Returns the
little-endian digit buffer and `dot_index`. -/
def mulLoop (num2rev : List Nat) : List Nat → Nat → List Nat → Nat → List Nat × Nat
  | [], _, buf, dot => (buf, dot)
  | ch :: rest1, k, buf, dot =>
    if ch = 46 then
      mulLoop num2rev rest1 (k + 1) buf k
    else
      match mulDigit (ch - 48) num2rev 0 buf with
      | [] => ([], dot)
      | d :: bufrest =>
        let res := mulLoop num2rev rest1 (k + 1) bufrest dot
        (d :: res.1, res.2)

/-- The final cleanup of `BigNum::multiply`: drop leading `'0'` characters
up to the first other character; an all-zero buffer becomes "0". -/
def trimZeros (l : List Nat) : List Nat :=
  match l.dropWhile (fun c => c = 48) with
  | [] => [48]
  | r => r

/-- `BigNum::multiply` from `src/utils.rs` (long multiplication of the
decimal string by `num2`, tracking the decimal point): the result buffer
has `len1 + len2` zeroed slots; after the digit loops, `'.'` is re-inserted
at `dot_index` (when nonzero) in the little-endian buffer, the buffer is
reversed, digits are rendered as characters ('.' kept as is) and leading
zeros are trimmed. -/
def multiply (num1 : List Nat) (num2 : Nat) : List Nat :=
  let num2ascii := (Nat.toDigits 10 num2).map Char.toNat
  if num1.length = 0 ∨ num2ascii.length = 0 then [48]
  else
    let buf0 := List.replicate (num1.length + num2ascii.length) 0
    let res := mulLoop num2ascii.reverse num1.reverse 0 buf0 0
    let withDot := if res.2 ≠ 0 then res.1.insertIdx res.2 46 else res.1
    let asAscii := withDot.reverse.map (fun c => if c = 46 then c else c + 48)
    trimZeros asAscii

/-- The `for _ in 0..w { x.multiply(2) }` doubling loop of
`BigNum::calc_magic_constants`. -/
def iterDouble : Nat → List Nat → List Nat
  | 0, s => s
  | n + 1, s => iterDouble n (multiply s 2)

/-- One constant of `BigNum::calc_magic_constants` (`src/utils.rs`): double
the seed expansion `w` times, truncate to the integer part, convert to
binary, force oddness, and render as hex — the string the source prints. -/
def deriveConstant (seed : String) (w : Nat) : Option (List Nat) :=
  convertBinaryToHex (binaryOdd (convertToBinary (truncate (iterDouble w (ascii seed)))))

/-- `BigNum::calc_magic_constants` from `src/utils.rs`: the pair of hex
strings printed for `P{w}` and `Q{w}`. -/
def calcMagicConstants (w : Nat) : Option (List Nat) × Option (List Nat) :=
  (deriveConstant eulerMinus2 w, deriveConstant goldenRatioMinus1 w)


/-- The base-10 digits of `n`, least significant first, padded (or
truncated) to exactly `k` digits. -/
def natDigits : Nat → Nat → List Nat
  | 0, _ => []
  | k + 1, n => n % 10 :: natDigits k (n / 10)

/-- The decimal rendering of the rational `v / 10 ^ fl` as a `BigNum`
character list: `il` integer digit characters, `'.'`, `fl` fractional
digit characters. -/
def decString (il v fl : Nat) : List Nat :=
  (natDigits il (v / 10 ^ fl)).reverse.map (fun d => d + 48) ++
    46 :: (natDigits fl (v % 10 ^ fl)).reverse.map (fun d => d + 48)

/-- The digit stream produced by `mulLoop` with the single multiplier
digit 2 over a run of digit characters: each character `a` emits
`((a - 48) * 2 + c) % 10` and passes `((a - 48) * 2 + c) / 10` on as the
carry `c`. -/
def dblOut (c : Nat) : List Nat → List Nat
  | [] => []
  | a :: r => ((a - 48) * 2 + c) % 10 :: dblOut (((a - 48) * 2 + c) / 10) r

/-- The carry left after the digit stream of `dblOut`. -/
def dblCarry (c : Nat) : List Nat → Nat
  | [] => c
  | a :: r => dblCarry (((a - 48) * 2 + c) / 10) r

/-- The fractional digits of `eulerMinus2` read as a natural number
(835 digits). -/
def eulerFrac : Nat :=
  7182818284590452353602874713526624977572470936999595749669676277240766303535475945713821785251664274274663919320030599218174135966290435729003342952605956307381323286279434907632338298807531952510190115738341879307021540891499348841675092447614606680822648001684774118537423454424371075390777449920695517027618386062613313845830007520449338265602976067371132007093287091274437470472306969772093101416928368190255151086574637721112523897844250569536967707854499699679468644549059879316368892300987931277361782154249992295763514822082698951936680331825288693984964651058209392398294887933203625094431173012381970684161403970198376793206832823764648042953118023287825098194558153017567173613320698112509961818815930416903515988885193458072738667385894228792284998920868058257492796104841984443634632449684875602336248270419786232090021609

/-- The fractional digits of `goldenRatioMinus1` read as a natural number
(838 digits). -/
def goldenFrac : Nat :=
  6180339887498948482045868343656381177203091798057628621354486227052604628189024497072072041893911374847540880753868917521266338622235369317931800607667263544333890865959395829056383226613199282902678806752087668925017116962070322210432162695486262963136144381497587012203408058879544547492461856953648644492410443207713449470495658467885098743394422125448770664780915884607499887124007652170575179788341662562494075890697040002812104276217711177780531531714101170466659914669798731761356006708748071013179523689427521948435305678300228785699782977834784587822891109762500302696156170025046433824377648610283831268330372429267526311653392473167111211588186385133162038400522216579128667529465490681131715993432359734949850904094762132229810172610705961164562990981629055520852479035240602017279974717534277759277862561943208275051312181562

end BigNum

/-- The key of the reference test vector `encode_a`. -/
def katKeyA : List Nat :=
  [0x00, 0x01, 0x02, 0x03, 0x04, 0x05, 0x06, 0x07,
   0x08, 0x09, 0x0A, 0x0B, 0x0C, 0x0D, 0x0E, 0x0F]

/-- The plaintext of the reference test vector `encode_a`. -/
def katPtA : List Nat := [0x00, 0x11, 0x22, 0x33, 0x44, 0x55, 0x66, 0x77]

/-- The ciphertext of the reference test vector `encode_a`. -/
def katCtA : List Nat := [0x2D, 0xDC, 0x14, 0x9B, 0xCF, 0x08, 0x8B, 0x9E]

/-- C1: for RC5-32/12/16, encrypting `00 11 22 33 44 55 66 77` under the key
`00 01 ... 0F` yields exactly `2D DC 14 9B CF 08 8B 9E` (construction
succeeds, no panic, no error). -/
theorem c1_known_answer_rc5_32_12_16 :
    (Cypher.new katKeyA .Rc5_32_12_16).map (fun rc => Cypher.encrypt rc katPtA)
      = .ok (some (.ok katCtA)) := by
  rfl

/-- C7: a block shorter than `2 * bytes_per_word` does not generally produce
`BufferOutOfBounds`: only blocks shorter than `bytes_per_word` (4) do, while a
7-byte block — one byte short — passes the guard and panics (`none`) in
`try_into().unwrap()`, both in `le_bytes_to_words` itself and through
`encrypt`. -/
theorem c7_short_block_panics :
    Cypher.leBytesToWords 4 (List.replicate 7 0) = none ∧
    Cypher.leBytesToWords 4 [0, 0, 0] = some (.error .BufferOutOfBounds) ∧
    (Cypher.new katKeyA .Rc5_32_12_16).map
      (fun rc => Cypher.encrypt rc (List.replicate 7 0)) = .ok none := by
  exact ⟨rfl, rfl, rfl⟩

namespace Generic

theorem rotl_lt {w x : Nat} (hx : x < 2 ^ w) (y : Nat) : rotl w x y < 2 ^ w := by
  have h1 : (x <<< (y % w)) % 2 ^ w < 2 ^ w := Nat.mod_lt _ (Nat.two_pow_pos w)
  have h2 : x >>> ((w - y % w) % w) < 2 ^ w := by
    rw [Nat.shiftRight_eq_div_pow]
    exact Nat.lt_of_le_of_lt (Nat.div_le_self _ _) hx
  exact Nat.or_lt_two_pow h1 h2

theorem rotr_lt {w x : Nat} (hx : x < 2 ^ w) (y : Nat) : rotr w x y < 2 ^ w := by
  have h1 : x >>> (y % w) < 2 ^ w := by
    rw [Nat.shiftRight_eq_div_pow]
    exact Nat.lt_of_le_of_lt (Nat.div_le_self _ _) hx
  have h2 : (x <<< ((w - y % w) % w)) % 2 ^ w < 2 ^ w := Nat.mod_lt _ (Nat.two_pow_pos w)
  exact Nat.or_lt_two_pow h1 h2

theorem testBit_rotl {w x : Nat} (hx : x < 2 ^ w) (y i : Nat) (hi : i < w) :
    (rotl w x y).testBit i = x.testBit ((i + (w - y % w)) % w) := by
  have hw : 0 < w := by omega
  have hsw : y % w < w := Nat.mod_lt _ hw
  unfold rotl
  rw [Nat.testBit_or, Nat.testBit_mod_two_pow, Nat.testBit_shiftLeft, Nat.testBit_shiftRight]
  by_cases h0 : y % w = 0
  · have h2 : (i + (w - y % w)) % w = i := by
      rw [h0, Nat.sub_zero, Nat.add_mod_right]
      exact Nat.mod_eq_of_lt hi
    rw [h2, h0]
    simp [hi, Nat.mod_self]
  · have h1 : (w - y % w) % w = w - y % w := Nat.mod_eq_of_lt (by omega)
    rw [h1]
    by_cases his : y % w ≤ i
    · have h2 : (i + (w - y % w)) % w = i - y % w := by
        have h3 : i + (w - y % w) = (i - y % w) + w := by omega
        rw [h3, Nat.add_mod_right]
        exact Nat.mod_eq_of_lt (by omega)
      have h4 : x.testBit (w - y % w + i) = false :=
        Nat.testBit_lt_two_pow
          (Nat.lt_of_lt_of_le hx (Nat.pow_le_pow_right (by norm_num) (by omega)))
      rw [h2, h4]
      simp [hi, his]
    · have h2 : (i + (w - y % w)) % w = i + (w - y % w) := Nat.mod_eq_of_lt (by omega)
      rw [h2]
      simp [his, Nat.add_comm]

theorem testBit_rotr {w x : Nat} (hx : x < 2 ^ w) (y i : Nat) (hi : i < w) :
    (rotr w x y).testBit i = x.testBit ((i + y % w) % w) := by
  have hw : 0 < w := by omega
  have hsw : y % w < w := Nat.mod_lt _ hw
  unfold rotr
  rw [Nat.testBit_or, Nat.testBit_shiftRight, Nat.testBit_mod_two_pow, Nat.testBit_shiftLeft]
  by_cases h0 : y % w = 0
  · have h2 : (i + y % w) % w = i := by
      rw [h0, Nat.add_zero]
      exact Nat.mod_eq_of_lt hi
    rw [h2, h0]
    simp [hi, Nat.mod_self]
  · have h1 : (w - y % w) % w = w - y % w := Nat.mod_eq_of_lt (by omega)
    rw [h1]
    by_cases hiw : i + y % w < w
    · have h2 : (i + y % w) % w = i + y % w := Nat.mod_eq_of_lt hiw
      have h3 : ¬ w - y % w ≤ i := by omega
      rw [h2]
      simp [h3, Nat.add_comm]
    · have h2 : (i + y % w) % w = i + y % w - w := by
        rw [Nat.mod_eq_sub_mod (by omega)]
        exact Nat.mod_eq_of_lt (by omega)
      have h3 : x.testBit (y % w + i) = false :=
        Nat.testBit_lt_two_pow
          (Nat.lt_of_lt_of_le hx (Nat.pow_le_pow_right (by norm_num) (by omega)))
      have h4 : i - (w - y % w) = i + y % w - w := by omega
      have h6 : w - y % w ≤ i := by omega
      rw [h2, h3, h4]
      simp [hi, h6]

theorem rotl_mod_amount (w x y : Nat) : rotl w x (y % w) = rotl w x y := by
  unfold rotl
  rw [Nat.mod_mod_of_dvd y dvd_rfl]

theorem rotr_mod_amount (w x y : Nat) : rotr w x (y % w) = rotr w x y := by
  unfold rotr
  rw [Nat.mod_mod_of_dvd y dvd_rfl]

theorem rotl_amount_zero {w x y : Nat} (hx : x < 2 ^ w) (h : y % w = 0) :
    rotl w x y = x := by
  unfold rotl
  rw [h, Nat.sub_zero, Nat.mod_self, Nat.shiftLeft_zero, Nat.shiftRight_zero,
    Nat.mod_eq_of_lt hx, Nat.or_self]

theorem rotr_amount_zero {w x y : Nat} (hx : x < 2 ^ w) (h : y % w = 0) :
    rotr w x y = x := by
  unfold rotr
  rw [h, Nat.sub_zero, Nat.mod_self, Nat.shiftLeft_zero, Nat.shiftRight_zero,
    Nat.mod_eq_of_lt hx, Nat.or_self]

theorem rotl_rotr {w x : Nat} (hw : 0 < w) (hx : x < 2 ^ w) (y : Nat) :
    rotl w (rotr w x y) y = x := by
  apply Nat.eq_of_testBit_eq
  intro i
  by_cases hi : i < w
  · rw [testBit_rotl (rotr_lt hx y) y i hi]
    have hlt : (i + (w - y % w)) % w < w := Nat.mod_lt _ hw
    rw [testBit_rotr hx y _ hlt]
    congr 1
    rw [Nat.mod_add_mod]
    have h1 : i + (w - y % w) + y % w = i + w := by
      have h2 : y % w < w := Nat.mod_lt _ hw
      omega
    rw [h1, Nat.add_mod_right]
    exact Nat.mod_eq_of_lt hi
  · have hle : 2 ^ w ≤ 2 ^ i := Nat.pow_le_pow_right (by norm_num) (by omega)
    rw [Nat.testBit_lt_two_pow (Nat.lt_of_lt_of_le (rotl_lt (rotr_lt hx y) y) hle),
      Nat.testBit_lt_two_pow (Nat.lt_of_lt_of_le hx hle)]

theorem rotr_rotl {w x : Nat} (hw : 0 < w) (hx : x < 2 ^ w) (y : Nat) :
    rotr w (rotl w x y) y = x := by
  apply Nat.eq_of_testBit_eq
  intro i
  by_cases hi : i < w
  · rw [testBit_rotr (rotl_lt hx y) y i hi]
    have hlt : (i + y % w) % w < w := Nat.mod_lt _ hw
    rw [testBit_rotl hx y _ hlt]
    congr 1
    rw [Nat.mod_add_mod]
    have h1 : i + y % w + (w - y % w) = i + w := by
      have h2 : y % w < w := Nat.mod_lt _ hw
      omega
    rw [h1, Nat.add_mod_right]
    exact Nat.mod_eq_of_lt hi
  · have hle : 2 ^ w ≤ 2 ^ i := Nat.pow_le_pow_right (by norm_num) (by omega)
    rw [Nat.testBit_lt_two_pow (Nat.lt_of_lt_of_le (rotr_lt (rotl_lt hx y) y) hle),
      Nat.testBit_lt_two_pow (Nat.lt_of_lt_of_le hx hle)]

end Generic

namespace WordMod

theorem shl_lt (w v y : Nat) : shl w v y < 2 ^ w :=
  Nat.mod_lt _ (Nat.two_pow_pos w)

theorem shr_lt (w v y : Nat) : shr w v y < 2 ^ w :=
  Nat.mod_lt _ (Nat.two_pow_pos w)

theorem shl_eq_rotl {w v : Nat} (h128 : w ≤ 128) (hv : v < 2 ^ w) (y : Nat) :
    shl w v y = Generic.rotl w v y := by
  apply Nat.eq_of_testBit_eq
  intro i
  by_cases hi : i < w
  · have h1 : i < 128 := Nat.lt_of_lt_of_le hi h128
    unfold shl Generic.rotl
    rw [Nat.testBit_mod_two_pow, Nat.testBit_or, Nat.testBit_or,
      Nat.testBit_mod_two_pow, Nat.testBit_mod_two_pow,
      decide_eq_true hi, decide_eq_true h1]
    simp only [Bool.true_and]
  · have hle : 2 ^ w ≤ 2 ^ i := Nat.pow_le_pow_right (by norm_num) (by omega)
    rw [Nat.testBit_lt_two_pow (Nat.lt_of_lt_of_le (shl_lt w v y) hle),
      Nat.testBit_lt_two_pow (Nat.lt_of_lt_of_le (Generic.rotl_lt hv y) hle)]

theorem shr_eq_rotr {w v : Nat} (h128 : w ≤ 128) (hv : v < 2 ^ w) (y : Nat) :
    shr w v y = Generic.rotr w v y := by
  apply Nat.eq_of_testBit_eq
  intro i
  by_cases hi : i < w
  · have h1 : i < 128 := Nat.lt_of_lt_of_le hi h128
    unfold shr Generic.rotr
    rw [Nat.testBit_mod_two_pow, Nat.testBit_or, Nat.testBit_or,
      Nat.testBit_mod_two_pow, Nat.testBit_mod_two_pow,
      decide_eq_true hi, decide_eq_true h1]
    simp only [Bool.true_and]
  · have hle : 2 ^ w ≤ 2 ^ i := Nat.pow_le_pow_right (by norm_num) (by omega)
    rw [Nat.testBit_lt_two_pow (Nat.lt_of_lt_of_le (shr_lt w v y) hle),
      Nat.testBit_lt_two_pow (Nat.lt_of_lt_of_le (Generic.rotr_lt hv y) hle)]

theorem supported_bounds {w : Nat} (hw : w ∈ supportedWidths) : 0 < w ∧ w ≤ 128 := by
  simp only [supportedWidths, List.mem_cons, List.not_mem_nil, or_false] at hw
  rcases hw with h | h | h | h | h <;> omega

end WordMod

/-- C6: for every supported width, every in-width word `x` and every rotate
amount `y`, the `Word` rotations of `src/word.rs` satisfy
`rotate_left(x, width) = x` and `rotate_left(rotate_right(x, y), y) = x`. -/
theorem c6_rotate_identity_inverse (w : Nat) (hw : w ∈ WordMod.supportedWidths)
    (x : Nat) (hx : x < 2 ^ w) (y : Nat) :
    WordMod.shl w x w = x ∧ WordMod.shl w (WordMod.shr w x y) y = x := by
  obtain ⟨hpos, h128⟩ := WordMod.supported_bounds hw
  constructor
  · rw [WordMod.shl_eq_rotl h128 hx w]
    exact Generic.rotl_amount_zero hx (Nat.mod_self w)
  · rw [WordMod.shr_eq_rotr h128 hx y,
      WordMod.shl_eq_rotl h128 (Generic.rotr_lt hx y) y]
    exact Generic.rotl_rotr hpos hx y

/-- Witness for C6 at `w = 16`, `x = 0x1234`, `y = 0x2F`. -/
theorem c6_rotate_identity_inverse_witness :
    (16 ∈ WordMod.supportedWidths ∧ 0x1234 < 2 ^ 16) ∧
    (WordMod.shl 16 0x1234 16 = 0x1234 ∧
      WordMod.shl 16 (WordMod.shr 16 0x1234 0x2F) 0x2F = 0x1234) :=
  ⟨⟨by decide, by decide⟩, c6_rotate_identity_inverse 16 (by decide) 0x1234 (by decide) 0x2F⟩

namespace Cypher

theorem and_mask_eq_mod (y : Nat) : y &&& (32 - 1) = y % 32 := by
  have h : (32 : Nat) - 1 = 2 ^ 5 - 1 := by norm_num
  rw [h, Nat.and_pow_two_sub_one_eq_mod]

theorem rotateLeft_eq_rotl (x y : Nat) : rotateLeft x y = Generic.rotl 32 x y := by
  unfold rotateLeft Generic.rotl
  rw [and_mask_eq_mod]

theorem rotateRight_eq_rotr (x y : Nat) : rotateRight x y = Generic.rotr 32 x y := by
  unfold rotateRight Generic.rotr
  rw [and_mask_eq_mod]

end Cypher

namespace WordMod

theorem shl_mod_amount (w x y : Nat) : shl w x (y % w) = shl w x y := by
  unfold shl
  rw [Nat.mod_mod_of_dvd y dvd_rfl]

theorem shr_mod_amount (w x y : Nat) : shr w x (y % w) = shr w x y := by
  unfold shr
  rw [Nat.mod_mod_of_dvd y dvd_rfl]

end WordMod

/-- C5 (amended): every rotate implementation in the repository reduces its
amount modulo the word width before shifting — so rotating by `y` equals
rotating by `y % w`, rotating by any amount congruent to 0 modulo the width
(including the width itself and larger multiples) returns the word
unchanged, and the two rotates of `src/rc5/cypher.rs` coincide with the
32-bit instance of the generic ones. An amount such as 0xFFFF on a 16-bit
word reduces to 15 — it is handled, but does not return the word unchanged
(see the counterexample). -/
theorem c5_rotate_amount_reduced_mod_width (w : Nat) (hw : w ∈ WordMod.supportedWidths)
    (x : Nat) (hx : x < 2 ^ w) (y : Nat) :
    (WordMod.shl w x y = WordMod.shl w x (y % w) ∧
     WordMod.shr w x y = WordMod.shr w x (y % w) ∧
     Generic.rotl w x y = Generic.rotl w x (y % w) ∧
     Generic.rotr w x y = Generic.rotr w x (y % w)) ∧
    (y % w = 0 →
      WordMod.shl w x y = x ∧ WordMod.shr w x y = x ∧
      Generic.rotl w x y = x ∧ Generic.rotr w x y = x) ∧
    (Cypher.rotateLeft x y = Generic.rotl 32 x y ∧
     Cypher.rotateRight x y = Generic.rotr 32 x y) := by
  obtain ⟨hpos, h128⟩ := WordMod.supported_bounds hw
  refine ⟨⟨(WordMod.shl_mod_amount w x y).symm, (WordMod.shr_mod_amount w x y).symm,
      (Generic.rotl_mod_amount w x y).symm, (Generic.rotr_mod_amount w x y).symm⟩,
    fun h0 => ⟨?_, ?_, ?_, ?_⟩,
    Cypher.rotateLeft_eq_rotl x y, Cypher.rotateRight_eq_rotr x y⟩
  · rw [WordMod.shl_eq_rotl h128 hx y]
    exact Generic.rotl_amount_zero hx h0
  · rw [WordMod.shr_eq_rotr h128 hx y]
    exact Generic.rotr_amount_zero hx h0
  · exact Generic.rotl_amount_zero hx h0
  · exact Generic.rotr_amount_zero hx h0

/-- C5 counterexample: contrary to the claim's example, rotating the 16-bit
word 1 by 0xFFFF does not return it unchanged — 0xFFFF is not congruent to 0
modulo 16; the amount reduces to 15 and the rotate yields 0x8000. -/
theorem c5_counterexample_rotate_16_by_0xFFFF :
    WordMod.shl 16 1 0xFFFF = 0x8000 ∧ WordMod.shl 16 1 0xFFFF ≠ 1 := by
  constructor <;> decide

/-- Witness for C5 at `w = 16`, `x = 5`, `y = 32` (an amount that exceeds the
width and is congruent to 0 modulo it). -/
theorem c5_rotate_amount_reduced_mod_width_witness :
    (16 ∈ WordMod.supportedWidths ∧ (5 : Nat) < 2 ^ 16) ∧
    ((WordMod.shl 16 5 32 = WordMod.shl 16 5 (32 % 16) ∧
      WordMod.shr 16 5 32 = WordMod.shr 16 5 (32 % 16) ∧
      Generic.rotl 16 5 32 = Generic.rotl 16 5 (32 % 16) ∧
      Generic.rotr 16 5 32 = Generic.rotr 16 5 (32 % 16)) ∧
     (32 % 16 = 0 →
       WordMod.shl 16 5 32 = 5 ∧ WordMod.shr 16 5 32 = 5 ∧
       Generic.rotl 16 5 32 = 5 ∧ Generic.rotr 16 5 32 = 5) ∧
     (Cypher.rotateLeft 5 32 = Generic.rotl 32 5 32 ∧
      Cypher.rotateRight 5 32 = Generic.rotr 32 5 32)) :=
  ⟨⟨by decide, by decide⟩,
    c5_rotate_amount_reduced_mod_width 16 (by decide) 5 (by decide) 32⟩

theorem getD_set_self {l : List Nat} {i : Nat} (h : i < l.length) (v d : Nat) :
    (l.set i v).getD i d = v := by
  rw [List.getD_eq_getElem?_getD, List.getElem?_set_self h]
  rfl

theorem set_getD_self {l : List Nat} {i : Nat} (h : i < l.length) (d : Nat) :
    l.set i (l.getD i d) = l := by
  apply List.ext_getElem?
  intro j
  by_cases hj : i = j
  · subst hj
    rw [List.getElem?_set_self h, List.getD_eq_getElem?_getD, List.getElem?_eq_getElem h]
    rfl
  · rw [List.getElem?_set_ne hj]

theorem getD_append_left {l t : List Nat} {i : Nat} (h : i < l.length) (d : Nat) :
    (l ++ t).getD i d = l.getD i d := by
  rw [List.getD_eq_getElem?_getD, List.getD_eq_getElem?_getD, List.getElem?_append_left h]

theorem set_concat_length (l : List Nat) (a x : Nat) :
    (l ++ [a]).set l.length x = l ++ [x] := by
  rw [List.set_append_right _ _ (Nat.le_refl _), Nat.sub_self]
  rfl

namespace Generic

theorem parseLoop_append (nb w : Nat) (l1 l2 : List Nat) :
    ∀ (ret : List Nat) (i j : Nat),
    parseLoop nb w (l1 ++ l2) ret i j =
      parseLoop nb w l2 (parseLoop nb w l1 ret i j) (i + l1.length) (j - l1.length) := by
  induction l1 with
  | nil =>
    intro ret i j
    simp [parseLoop]
  | cons b rest ih =>
    intro ret i j
    simp only [List.cons_append, parseLoop, List.append_eq]
    rw [ih]
    have h1 : i + 1 + rest.length = i + (b :: rest).length := by
      simp only [List.length_cons]
      omega
    have h2 : j - 1 - rest.length = j - (b :: rest).length := by
      simp only [List.length_cons]
      omega
    rw [h1, h2]

theorem parseLoop_mod_i (nb w : Nat) (l : List Nat) :
    ∀ (ret : List Nat) (i i' j : Nat), i % nb = i' % nb →
    parseLoop nb w l ret i j = parseLoop nb w l ret i' j := by
  induction l with
  | nil => intro ret i i' j _; rfl
  | cons b rest ih =>
    intro ret i i' j h
    simp only [parseLoop]
    rw [h]
    exact ih _ _ _ _ (by rw [Nat.add_mod, Nat.add_mod i' 1, h])

theorem parseLoop_append_ret (nb w : Nat) (hnb : 0 < nb) (l : List Nat) :
    ∀ (ret tl : List Nat) (i : Nat), l.length ≤ ret.length * nb →
    parseLoop nb w l (ret ++ tl) i l.length = parseLoop nb w l ret i l.length ++ tl := by
  induction l with
  | nil => intro ret tl i _; rfl
  | cons b rest ih =>
    intro ret tl i hlen
    simp only [List.length_cons] at hlen
    simp only [parseLoop, List.length_cons, Nat.add_sub_cancel]
    have hq : rest.length / nb < ret.length := by
      rw [Nat.div_lt_iff_lt_mul hnb]
      omega
    rw [List.set_append_left _ _ hq, getD_append_left hq]
    exact ih _ tl (i + 1) (by rw [List.length_set]; omega)

end Generic

namespace Generic

theorem parseLoop_chunk (nb w : Nat) (hnb : 0 < nb) (c : List Nat) :
    ∀ (ret : List Nat) (i m : Nat), i % nb + c.length ≤ nb → nb ∣ m →
      m / nb < ret.length →
    parseLoop nb w c ret i (m + c.length) =
      ret.set (m / nb) (orAccum nb w (ret.getD (m / nb) 0) c i) := by
  induction c with
  | nil =>
    intro ret i m _ _ hq
    exact (set_getD_self hq 0).symm
  | cons b rest ih =>
    intro ret i m hle hdvd hq
    obtain ⟨k, hk⟩ := hdvd
    simp only [List.length_cons] at hle
    have hrest : rest.length < nb := by omega
    have hj1 : m + (rest.length + 1) - 1 = m + rest.length := by omega
    have hdiv : (m + rest.length) / nb = m / nb := by
      rw [hk, Nat.mul_add_div hnb, Nat.div_eq_of_lt hrest,
        Nat.mul_div_cancel_left k hnb]
      omega
    simp only [parseLoop, orAccum, List.length_cons, hj1, hdiv]
    have hmod := Nat.mod_add_mod i nb 1
    have hle2 : (i + 1) % nb + rest.length ≤ nb := by
      rcases Nat.eq_zero_or_pos rest.length with h0 | h0
      · have := Nat.mod_lt (i + 1) hnb
        omega
      · have h1 : i % nb + 1 < nb := by omega
        rw [← hmod, Nat.mod_eq_of_lt h1]
        omega
    rw [ih _ (i + 1) m hle2 ⟨k, hk⟩ (by rw [List.length_set]; exact hq),
      getD_set_self hq, List.set_set]

theorem flatten_length_const (nb : Nat) :
    ∀ (chunks : List (List Nat)), (∀ c ∈ chunks, c.length = nb) →
    chunks.flatten.length = nb * chunks.length := by
  intro chunks
  induction chunks with
  | nil => intro _; rfl
  | cons c rest ih =>
    intro h
    simp only [List.flatten_cons, List.length_append, List.length_cons]
    rw [h c (List.mem_cons_self c rest), ih (fun d hd => h d (List.mem_cons_of_mem c hd))]
    ring

theorem parse_flatten (nb w : Nat) (hnb : 0 < nb) (chunks : List (List Nat))
    (hlen : ∀ c ∈ chunks, c.length = nb) :
    parse nb w chunks.flatten = chunks.map (parsedWord nb w) := by
  induction chunks using List.reverseRecOn with
  | nil =>
    simp only [List.flatten_nil, List.map_nil, parse, divCeil, List.length_nil,
      List.reverse_nil, Nat.zero_add, Nat.div_eq_of_lt (Nat.sub_lt hnb Nat.one_pos)]
    rfl
  | append_singleton chunks c ih =>
    have hc : c.length = nb := hlen c (by simp)
    have hrec : ∀ d ∈ chunks, d.length = nb := fun d hd => hlen d (by simp [hd])
    have hm : chunks.flatten.length = nb * chunks.length := flatten_length_const nb chunks hrec
    set k := chunks.length with hkdef
    have hflat : (chunks ++ [c]).flatten = chunks.flatten ++ c := by
      simp
    rw [hflat]
    unfold parse
    have hlen2 : (chunks.flatten ++ c).length = nb * k + nb := by
      simp [hm, hc]
    rw [hlen2]
    have hceil : divCeil (nb * k + nb) nb = k + 1 := by
      unfold divCeil
      rw [show nb * k + nb + (nb - 1) = nb * (k + 1) + (nb - 1) from by ring_nf,
        Nat.mul_add_div hnb, Nat.div_eq_of_lt (by omega)]
    rw [hceil, List.replicate_succ' (k) 0, List.reverse_append]
    have hrevlen : c.reverse.length = nb := by simp [hc]
    rw [parseLoop_append nb w c.reverse chunks.flatten.reverse _ 0 (nb * k + nb)]
    have hinner :
        parseLoop nb w c.reverse (List.replicate k 0 ++ [0]) 0 (nb * k + nb) =
          List.replicate k 0 ++ [parsedWord nb w c] := by
      have h1 : nb * k + nb = nb * k + c.reverse.length := by rw [hrevlen]
      rw [h1, parseLoop_chunk nb w hnb c.reverse _ 0 (nb * k)
        (by rw [hrevlen]; simp [Nat.zero_mod]) ⟨k, rfl⟩
        (by rw [Nat.mul_div_cancel_left k hnb]; simp)]
      rw [Nat.mul_div_cancel_left k hnb]
      have hget : (List.replicate k (0 : Nat) ++ [0]).getD k 0 = 0 := by
        rw [List.getD_eq_getElem?_getD, List.getElem?_append_right (by simp)]
        simp
      rw [hget]
      have hset : (List.replicate k (0 : Nat) ++ [0]).set k (orAccum nb w 0 c.reverse 0) =
          List.replicate k 0 ++ [orAccum nb w 0 c.reverse 0] := by
        rw [List.set_append_right _ _ (by simp),
          show k - (List.replicate k (0 : Nat)).length = 0 from by simp]
        rfl
      rw [hset]
      rfl
    rw [hinner, hrevlen]
    have houter :
        parseLoop nb w chunks.flatten.reverse (List.replicate k 0 ++ [parsedWord nb w c])
          (0 + nb) (nb * k + nb - nb) =
          parse nb w chunks.flatten ++ [parsedWord nb w c] := by
      rw [parseLoop_mod_i nb w _ _ (0 + nb) 0 _ (by simp [Nat.mod_self]),
        show nb * k + nb - nb = nb * k from by omega]
      have hj : nb * k = chunks.flatten.reverse.length := by simp [hm]
      rw [hj, parseLoop_append_ret nb w hnb _ _ _ 0 (by simp [hm, Nat.mul_comm])]
      unfold parse
      have : divCeil chunks.flatten.length nb = k := by
        unfold divCeil
        rw [hm, Nat.mul_add_div hnb, Nat.div_eq_of_lt (by omega)]
        omega
      rw [this, ← hj, hm]
    rw [houter, ih hrec, List.map_append]
    rfl

end Generic

namespace Generic

theorem or_shl_eq_add {v k : Nat} (b : Nat) (hv : v < 2 ^ k) :
    v ||| b <<< k = 2 ^ k * b + v := by
  apply Nat.eq_of_testBit_eq
  intro i
  rw [Nat.testBit_or, Nat.testBit_mul_pow_two_add b hv i, Nat.testBit_shiftLeft]
  by_cases hik : i < k
  · have h1 : ¬ i ≥ k := by omega
    simp [hik, h1]
  · have h1 : v.testBit i = false :=
      Nat.testBit_lt_two_pow
        (Nat.lt_of_lt_of_le hv (Nat.pow_le_pow_right (by norm_num) (by omega)))
    simp [hik, h1, Nat.not_lt.mp hik]

theorem orAccum_eq (nb w : Nat) (hw : w = 8 * nb) :
    ∀ (l : List Nat) (v t : Nat), (∀ b ∈ l, b < 2 ^ 8) → v < 2 ^ (8 * t) →
      t + l.length ≤ nb →
    orAccum nb w v l t = v + 2 ^ (8 * t) * leVal l := by
  intro l
  induction l with
  | nil =>
    intro v t _ _ _
    simp [orAccum, leVal]
  | cons b rest ih =>
    intro v t hb hv hle
    simp only [List.length_cons] at hle
    have hbb : b < 2 ^ 8 := hb b (List.mem_cons_self b rest)
    have ht : t < nb := by omega
    simp only [orAccum, leVal]
    have htmod : t % nb = t := Nat.mod_eq_of_lt ht
    have hshift : (b <<< (8 * (t % nb))) % 2 ^ w = b <<< (8 * t) := by
      rw [htmod]
      apply Nat.mod_eq_of_lt
      rw [Nat.shiftLeft_eq, hw]
      calc b * 2 ^ (8 * t) < 2 ^ 8 * 2 ^ (8 * t) := by
            exact (Nat.mul_lt_mul_right (Nat.two_pow_pos _)).mpr hbb
        _ = 2 ^ (8 * t + 8) := by rw [← Nat.pow_add]; ring_nf
        _ ≤ 2 ^ (8 * nb) := Nat.pow_le_pow_right (by norm_num) (by omega)
    rw [hshift, or_shl_eq_add b hv]
    have hv1 : 2 ^ (8 * t) * b + v < 2 ^ (8 * (t + 1)) := by
      calc 2 ^ (8 * t) * b + v < 2 ^ (8 * t) * b + 2 ^ (8 * t) := by omega
        _ = 2 ^ (8 * t) * (b + 1) := by ring
        _ ≤ 2 ^ (8 * t) * 2 ^ 8 := Nat.mul_le_mul_left _ (by omega)
        _ = 2 ^ (8 * (t + 1)) := by rw [← Nat.pow_add]; ring_nf
    rw [ih _ (t + 1) (fun x hx => hb x (List.mem_cons_of_mem b hx)) hv1 (by omega)]
    rw [show 8 * (t + 1) = 8 * t + 8 from by ring, Nat.pow_add]
    ring

theorem parsedWord_eq_leVal (nb w : Nat) (hw : w = 8 * nb) (c : List Nat)
    (hc : c.length ≤ nb) (hb : ∀ b ∈ c, b < 2 ^ 8) :
    parsedWord nb w c = leVal c.reverse := by
  unfold parsedWord
  rw [orAccum_eq nb w hw c.reverse 0 0
    (fun b hbm => hb b (List.mem_reverse.mp hbm)) (by norm_num) (by simp [hc])]
  simp

theorem leVal_lt (l : List Nat) (hb : ∀ b ∈ l, b < 2 ^ 8) :
    leVal l < 2 ^ (8 * l.length) := by
  induction l with
  | nil => simp [leVal]
  | cons b rest ih =>
    have hbb : b < 2 ^ 8 := hb b (List.mem_cons_self b rest)
    have hr := ih (fun x hx => hb x (List.mem_cons_of_mem b hx))
    simp only [leVal, List.length_cons]
    calc b + 2 ^ 8 * leVal rest < 2 ^ 8 + 2 ^ 8 * leVal rest := by omega
      _ = 2 ^ 8 * (leVal rest + 1) := by ring
      _ ≤ 2 ^ 8 * 2 ^ (8 * rest.length) := Nat.mul_le_mul_left _ (by omega)
      _ = 2 ^ (8 * (rest.length + 1)) := by rw [← Nat.pow_add]; ring_nf

theorem beWord_eq_leVal_reverse (c : List Nat) : beWord c = leVal c.reverse := by
  induction c using List.reverseRecOn with
  | nil => rfl
  | append_singleton l a ih =>
    unfold beWord at ih ⊢
    rw [List.foldl_append, List.reverse_append]
    simp only [List.foldl_cons, List.foldl_nil, List.reverse_cons, List.reverse_nil,
      List.nil_append, List.cons_append, List.append_eq, leVal]
    rw [ih]
    ring

theorem leVal_leDigits (n : Nat) : ∀ x : Nat, x < 2 ^ (8 * n) →
    leVal (leDigits n x) = x := by
  induction n with
  | zero =>
    intro x hx
    simp only [Nat.mul_zero, Nat.pow_zero, Nat.lt_one_iff] at hx
    simp [hx, leDigits, leVal]
  | succ n ih =>
    intro x hx
    simp only [leDigits, leVal]
    rw [ih (x / 2 ^ 8) (by
      rw [Nat.div_lt_iff_lt_mul (Nat.two_pow_pos 8), ← Nat.pow_add]
      calc x < 2 ^ (8 * (n + 1)) := hx
        _ = 2 ^ (8 * n + 8) := by ring_nf)]
    omega

theorem leDigits_leVal (l : List Nat) (hb : ∀ b ∈ l, b < 2 ^ 8) :
    leDigits l.length (leVal l) = l := by
  induction l with
  | nil => rfl
  | cons b rest ih =>
    have hbb : b < 2 ^ 8 := hb b (List.mem_cons_self b rest)
    simp only [List.length_cons, leDigits, leVal]
    have h1 : (b + 2 ^ 8 * leVal rest) % 2 ^ 8 = b := by
      rw [Nat.add_mul_mod_self_left]
      exact Nat.mod_eq_of_lt hbb
    have h2 : (b + 2 ^ 8 * leVal rest) / 2 ^ 8 = leVal rest := by
      rw [Nat.add_mul_div_left _ _ (Nat.two_pow_pos 8),
        Nat.div_eq_of_lt hbb]
      omega
    rw [h1, h2, ih (fun x hx => hb x (List.mem_cons_of_mem b hx))]

theorem serializeWord_succ (n x : Nat) :
    serializeWord (n + 1) x = ((x >>> (8 * n)) &&& 0xFF) :: serializeWord n x := by
  unfold serializeWord
  rw [List.range_succ, List.reverse_append]
  rfl

theorem leDigits_succ_snoc (n : Nat) : ∀ x : Nat,
    leDigits (n + 1) x = leDigits n x ++ [x / 2 ^ (8 * n) % 2 ^ 8] := by
  induction n with
  | zero =>
    intro x
    simp [leDigits]
  | succ n ih =>
    intro x
    have h0 : leDigits (n + 1 + 1) x = x % 2 ^ 8 :: leDigits (n + 1) (x / 2 ^ 8) := rfl
    rw [h0, ih (x / 2 ^ 8)]
    have h1 : x / 2 ^ 8 / 2 ^ (8 * n) = x / 2 ^ (8 * (n + 1)) := by
      rw [Nat.div_div_eq_div_mul, ← Nat.pow_add]
      ring_nf
    rw [h1]
    rfl

theorem and_255_eq_mod (z : Nat) : z &&& 0xFF = z % 2 ^ 8 := by
  have h : (0xFF : Nat) = 2 ^ 8 - 1 := by norm_num
  rw [h, Nat.and_pow_two_sub_one_eq_mod]

theorem serializeWord_eq_leDigits_reverse (n x : Nat) :
    serializeWord n x = (leDigits n x).reverse := by
  induction n with
  | zero => rfl
  | succ n ih =>
    rw [serializeWord_succ, leDigits_succ_snoc, List.reverse_append, ih, and_255_eq_mod,
      Nat.shiftRight_eq_div_pow]
    simp

theorem serializeWord_length (n x : Nat) : (serializeWord n x).length = n := by
  unfold serializeWord
  simp

theorem serializeWord_bytes (n x : Nat) : ∀ b ∈ serializeWord n x, b < 2 ^ 8 := by
  intro b hb
  unfold serializeWord at hb
  obtain ⟨j, _, hj⟩ := List.mem_map.mp hb
  rw [← hj, and_255_eq_mod]
  exact Nat.mod_lt _ (Nat.two_pow_pos 8)

theorem parse_serialize (nb w : Nat) (hw : w = 8 * nb) (hnb : 0 < nb)
    (ws : List Nat) (hlt : ∀ x ∈ ws, x < 2 ^ w) :
    parse nb w (serialize nb ws) = ws := by
  unfold serialize
  rw [parse_flatten nb w hnb _ (by
    intro c hc
    obtain ⟨x, _, hx⟩ := List.mem_map.mp hc
    rw [← hx]
    exact serializeWord_length nb x)]
  rw [List.map_map]
  have h : ∀ x ∈ ws, (parsedWord nb w ∘ serializeWord nb) x = id x := by
    intro x hx
    simp only [Function.comp_apply, id_eq]
    rw [parsedWord_eq_leVal nb w hw _ (by simp [serializeWord_length])
      (serializeWord_bytes nb x)]
    rw [serializeWord_eq_leDigits_reverse, List.reverse_reverse]
    apply leVal_leDigits
    rw [← hw]
    exact hlt x hx
  rw [List.map_congr_left h, List.map_id]

end Generic

namespace Generic

theorem supported_nb_pos {nb : Nat} (hnb : nb ∈ supportedBytesPerWord) : 0 < nb := by
  simp only [supportedBytesPerWord, List.mem_cons, List.not_mem_nil, or_false] at hnb
  rcases hnb with h | h | h | h <;> omega

theorem exists_chunks (nb : Nat) (hnb : 0 < nb) :
    ∀ (k : Nat) (v : List Nat), v.length = nb * k →
    ∃ chunks : List (List Nat), (∀ c ∈ chunks, c.length = nb) ∧ chunks.flatten = v := by
  intro k
  induction k with
  | zero =>
    intro v hv
    have hnil : v = [] := List.length_eq_zero.mp (by omega)
    exact ⟨[], by simp, by simp [hnil]⟩
  | succ k ih =>
    intro v hv
    have hlen : nb ≤ v.length := by
      rw [hv, Nat.mul_succ]
      omega
    obtain ⟨chunks, hc, hf⟩ := ih (v.drop nb)
      (by rw [List.length_drop, hv, Nat.mul_succ]; omega)
    refine ⟨v.take nb :: chunks, ?_, ?_⟩
    · intro c hc2
      rcases List.mem_cons.mp hc2 with h | h
      · rw [h, List.length_take]
        omega
      · exact hc c h
    · simp [hf]

theorem serializeWord_parsedWord (nb : Nat) (c : List Nat) (hc : c.length = nb)
    (hb : ∀ b ∈ c, b < 2 ^ 8) :
    serializeWord nb (parsedWord nb (8 * nb) c) = c := by
  rw [parsedWord_eq_leVal nb (8 * nb) rfl c (by omega) hb,
    serializeWord_eq_leDigits_reverse]
  have hrl : c.reverse.length = nb := by simp [hc]
  rw [← hrl, leDigits_leVal c.reverse (fun b hbm => hb b (List.mem_reverse.mp hbm)),
    List.reverse_reverse]

end Generic

theorem Generic.serialize_parse_eq (nb : Nat) (hpos : 0 < nb) (v : List Nat)
    (hlen : v.length % nb = 0) (hb : ∀ b ∈ v, b < 2 ^ 8) :
    Generic.serialize nb (Generic.parse nb (8 * nb) v) = v := by
  obtain ⟨chunks, hc, hf⟩ := Generic.exists_chunks nb hpos (v.length / nb) v
    (by rw [Nat.mul_comm]; exact (Nat.div_mul_cancel (Nat.dvd_of_mod_eq_zero hlen)).symm)
  rw [← hf, Generic.parse_flatten nb (8 * nb) hpos chunks hc]
  unfold Generic.serialize
  rw [List.map_map]
  have hcong : ∀ c ∈ chunks,
      (Generic.serializeWord nb ∘ Generic.parsedWord nb (8 * nb)) c = id c := by
    intro c hcm
    simp only [Function.comp_apply, id_eq]
    exact Generic.serializeWord_parsedWord nb c (hc c hcm)
      (fun b hbm => hb b (hf ▸ List.mem_flatten.mpr ⟨c, hcm, hbm⟩))
  rw [List.map_congr_left hcong, List.map_id]

/-- C10: in the generic engine, `serialize` is a left inverse of `parse`:
for every byte vector whose length is a multiple of the word byte-size,
`serialize (parse v) = v`. -/
theorem c10_serialize_left_inverse_of_parse (nb : Nat)
    (hnb : nb ∈ Generic.supportedBytesPerWord) (v : List Nat)
    (hlen : v.length % nb = 0) (hb : ∀ b ∈ v, b < 2 ^ 8) :
    Generic.serialize nb (Generic.parse nb (8 * nb) v) = v :=
  Generic.serialize_parse_eq nb (Generic.supported_nb_pos hnb) v hlen hb

/-- Witness for C10 at `nb = 4` on an 8-byte vector. -/
theorem c10_serialize_left_inverse_of_parse_witness :
    (4 ∈ Generic.supportedBytesPerWord ∧ ([1, 2, 3, 4, 5, 6, 7, 8] : List Nat).length % 4 = 0 ∧
      (∀ b ∈ ([1, 2, 3, 4, 5, 6, 7, 8] : List Nat), b < 2 ^ 8)) ∧
    Generic.serialize 4 (Generic.parse 4 (8 * 4) [1, 2, 3, 4, 5, 6, 7, 8]) =
      [1, 2, 3, 4, 5, 6, 7, 8] :=
  ⟨⟨by decide, by decide, by decide⟩,
    c10_serialize_left_inverse_of_parse 4 (by decide) [1, 2, 3, 4, 5, 6, 7, 8]
      (by decide) (by decide)⟩

/-- C8 counterexample: the generic engine's `parse` is big-endian within each
word, not little-endian. On the 8-byte block `01 00 00 00 00 00 00 02` with
4-byte words, the claimed little-endian reading would give words
`[1, 0x02000000]`; the code produces `[0x01000000, 2]`. -/
theorem c8_counterexample_parse_not_little_endian :
    Generic.parse 4 32 [1, 0, 0, 0, 0, 0, 0, 2] = [0x01000000, 2] ∧
    Generic.parse 4 32 [1, 0, 0, 0, 0, 0, 0, 2] ≠ [1, 0x02000000] := by
  constructor <;> decide

theorem Generic.parse_block (nb : Nat) (hpos : 0 < nb) (v : List Nat)
    (hlen : v.length = 2 * nb) (hb : ∀ b ∈ v, b < 2 ^ 8) :
    Generic.parse nb (8 * nb) v =
      [Generic.beWord (v.take nb), Generic.beWord (v.drop nb)] := by
  have h1 : (v.take nb).length = nb := by
    rw [List.length_take]
    omega
  have h2 : (v.drop nb).length = nb := by
    rw [List.length_drop]
    omega
  have hv : ([v.take nb, v.drop nb] : List (List Nat)).flatten = v := by
    simp
  have hchunks : ∀ c ∈ [v.take nb, v.drop nb], c.length = nb := by
    intro c hc
    rcases List.mem_cons.mp hc with h | h
    · rw [h]; exact h1
    · rw [List.mem_singleton.mp h]; exact h2
  conv_lhs => rw [← hv]
  rw [Generic.parse_flatten nb (8 * nb) hpos _ hchunks]
  simp only [List.map_cons, List.map_nil]
  rw [Generic.parsedWord_eq_leVal nb (8 * nb) rfl _ (by omega)
      (fun b hbm => hb b (List.mem_of_mem_take hbm)),
    Generic.parsedWord_eq_leVal nb (8 * nb) rfl _ (by omega)
      (fun b hbm => hb b (List.mem_of_mem_drop hbm)),
    ← Generic.beWord_eq_leVal_reverse, ← Generic.beWord_eq_leVal_reverse]

theorem Generic.beWord_lt (c : List Nat) (hb : ∀ b ∈ c, b < 2 ^ 8) :
    Generic.beWord c < 2 ^ (8 * c.length) := by
  rw [Generic.beWord_eq_leVal_reverse]
  have h := Generic.leVal_lt c.reverse (fun b hbm => hb b (List.mem_reverse.mp hbm))
  rw [List.length_reverse] at h
  exact h

/-- C8 (amended): the `Rc5` implementation of `src/rc5/cypher.rs` consumes
and produces blocks in little-endian order exactly as the claim states
(`to_le_bytes`/`from_le_bytes` are mutually inverse, byte `i` being the
`i % 4`-th least significant byte of word `i / 4`); the generic engine of
`src/rc5.rs`, however, interprets and produces each word big-endian: `parse`
maps each `nb`-byte chunk to its big-endian value and `serialize` emits each
word most significant byte first (its bytes are the reversed little-endian
digits). -/
theorem c8_block_byte_order (nb : Nat) (hnb : nb ∈ Generic.supportedBytesPerWord)
    (v : List Nat) (hlen : v.length = 2 * nb) (hb : ∀ b ∈ v, b < 2 ^ 8) :
    Generic.parse nb (8 * nb) v =
      [Generic.beWord (v.take nb), Generic.beWord (v.drop nb)] ∧
    (∀ a b : Nat, Generic.serialize nb [a, b] =
      (Generic.leDigits nb a).reverse ++ (Generic.leDigits nb b).reverse) ∧
    (∀ x : Nat, x < 2 ^ 32 → Cypher.fromLeBytes (Cypher.toLeBytes x) = x) ∧
    (∀ bs : List Nat, bs.length = 4 → (∀ b ∈ bs, b < 2 ^ 8) →
      Cypher.toLeBytes (Cypher.fromLeBytes bs) = bs) := by
  have hpos : 0 < nb := Generic.supported_nb_pos hnb
  refine ⟨Generic.parse_block nb hpos v hlen hb, ?_, ?_, ?_⟩
  · intro a b
    unfold Generic.serialize
    simp [Generic.serializeWord_eq_leDigits_reverse]
  · intro x hx
    have h : Cypher.fromLeBytes (Cypher.toLeBytes x) =
        x % 2 ^ 8 + 2 ^ 8 * (x / 2 ^ 8 % 2 ^ 8) + 2 ^ 16 * (x / 2 ^ 16 % 2 ^ 8) +
          2 ^ 24 * (x / 2 ^ 24 % 2 ^ 8) := rfl
    rw [h]
    omega
  · intro bs hbs hby
    rcases bs with _ | ⟨b0, _ | ⟨b1, _ | ⟨b2, _ | ⟨b3, _ | ⟨b4, tl⟩⟩⟩⟩⟩ <;>
        simp only [List.length_cons, List.length_nil] at hbs <;>
      try omega
    have h0 : b0 < 2 ^ 8 := hby b0 (by simp)
    have h1 : b1 < 2 ^ 8 := hby b1 (by simp)
    have h2 : b2 < 2 ^ 8 := hby b2 (by simp)
    have h3 : b3 < 2 ^ 8 := hby b3 (by simp)
    have hfl : Cypher.fromLeBytes [b0, b1, b2, b3] =
        b0 + 2 ^ 8 * b1 + 2 ^ 16 * b2 + 2 ^ 24 * b3 := rfl
    rw [hfl]
    unfold Cypher.toLeBytes
    have e0 : (b0 + 2 ^ 8 * b1 + 2 ^ 16 * b2 + 2 ^ 24 * b3) % 2 ^ 8 = b0 := by omega
    have e1 : (b0 + 2 ^ 8 * b1 + 2 ^ 16 * b2 + 2 ^ 24 * b3) / 2 ^ 8 % 2 ^ 8 = b1 := by omega
    have e2 : (b0 + 2 ^ 8 * b1 + 2 ^ 16 * b2 + 2 ^ 24 * b3) / 2 ^ 16 % 2 ^ 8 = b2 := by omega
    have e3 : (b0 + 2 ^ 8 * b1 + 2 ^ 16 * b2 + 2 ^ 24 * b3) / 2 ^ 24 % 2 ^ 8 = b3 := by omega
    rw [e0, e1, e2, e3]

/-- Witness for C8 at `nb = 4` on the counterexample block. -/
theorem c8_block_byte_order_witness :
    (4 ∈ Generic.supportedBytesPerWord ∧
      ([1, 0, 0, 0, 0, 0, 0, 2] : List Nat).length = 2 * 4 ∧
      (∀ b ∈ ([1, 0, 0, 0, 0, 0, 0, 2] : List Nat), b < 2 ^ 8)) ∧
    Generic.parse 4 (8 * 4) [1, 0, 0, 0, 0, 0, 0, 2] =
      [Generic.beWord (([1, 0, 0, 0, 0, 0, 0, 2] : List Nat).take 4),
       Generic.beWord (([1, 0, 0, 0, 0, 0, 0, 2] : List Nat).drop 4)] :=
  ⟨⟨by decide, by decide, by decide⟩,
    (c8_block_byte_order 4 (by decide) [1, 0, 0, 0, 0, 0, 0, 2] (by decide) (by decide)).1⟩

theorem getD_lt_of_forall {s : List Nat} {m : Nat} (h : ∀ x ∈ s, x < m) (hm : 0 < m)
    (i : Nat) : s.getD i 0 < m := by
  rw [List.getD_eq_getElem?_getD]
  cases hx : s[i]? with
  | none => simpa using hm
  | some x => simpa using h x (List.getElem?_mem hx)

namespace Generic

theorem wAdd_eq {w : Nat} (hw : w ≤ 128) (a b : Nat) : wAdd w a b = (a + b) % 2 ^ w := by
  unfold wAdd
  rw [Nat.mod_mod_of_dvd _ (Nat.pow_dvd_pow 2 hw)]

theorem wAdd_lt (w a b : Nat) : wAdd w a b < 2 ^ w :=
  Nat.mod_lt _ (Nat.two_pow_pos w)

theorem wSub_eq {w : Nat} (hw : w ≤ 128) (a b : Nat) :
    wSub w a b = (2 ^ 128 + a - b) % 2 ^ w := by
  unfold wSub
  rw [Nat.mod_mod_of_dvd _ (Nat.pow_dvd_pow 2 hw)]

theorem wSub_wAdd {w : Nat} (hw : w ≤ 128) {a b : Nat} (ha : a < 2 ^ w) (hb : b < 2 ^ w) :
    wSub w (wAdd w a b) b = a := by
  have h1 : 2 ^ w ∣ 2 ^ 128 := Nat.pow_dvd_pow 2 hw
  rw [wAdd_eq hw, wSub_eq hw]
  set x := (a + b) % 2 ^ w with hxdef
  have hxa : x ≡ a + b [MOD 2 ^ w] := Nat.mod_modEq (a + b) (2 ^ w)
  have hble : b ≤ 2 ^ 128 :=
    le_of_lt (lt_of_lt_of_le hb (Nat.pow_le_pow_right (by norm_num) hw))
  have hmeq : 2 ^ 128 + x - b ≡ a [MOD 2 ^ w] := by
    apply Nat.ModEq.add_right_cancel' b
    have he : 2 ^ 128 + x - b + b = 2 ^ 128 + x := by omega
    rw [he]
    calc (2 ^ 128 + x : Nat) ≡ 0 + x [MOD 2 ^ w] :=
          Nat.ModEq.add_right x (Nat.modEq_zero_iff_dvd.mpr h1)
      _ = x := by omega
      _ ≡ a + b [MOD 2 ^ w] := hxa
  have hfin : (2 ^ 128 + x - b) % 2 ^ w = a % 2 ^ w := hmeq
  rw [hfin, Nat.mod_eq_of_lt ha]

theorem mixLoopG_mem_lt (w t c : Nat) :
    ∀ (n : Nat) (s l : List Nat) (i j a b : Nat), (∀ x ∈ s, x < 2 ^ w) →
    ∀ x ∈ (mixLoopG w t c n (s, l, i, j, a, b)).1, x < 2 ^ w := by
  intro n
  induction n with
  | zero => intro s l i j a b hs; exact hs
  | succ n ih =>
    intro s l i j a b hs
    simp only [mixLoopG]
    exact ih _ _ _ _ _ _ (by
      intro x hx
      rcases List.mem_or_eq_of_mem_set hx with h | h
      · exact hs x h
      · rw [h]
        exact rotl_lt (wAdd_lt _ _ _) 3)

theorem sValG_lt {w p q : Nat} (hp : p < 2 ^ w) : ∀ i, sValG w p q i < 2 ^ w
  | 0 => hp
  | _ + 1 => wAdd_lt _ _ _

theorem keyExpansion_mem_lt {w r p q : Nat} (key : List Nat) (hp : p < 2 ^ w) :
    ∀ x ∈ keyExpansion w r p q key, x < 2 ^ w := by
  unfold keyExpansion keyExpansionIters
  apply mixLoopG_mem_lt
  intro x hx
  unfold sInitG at hx
  obtain ⟨i, _, hi⟩ := List.mem_map.mp hx
  rw [← hi]
  exact sValG_lt hp i

theorem encLoopG_lt (w : Nat) (s : List Nat) :
    ∀ (r : Nat) (ab : Nat × Nat), ab.1 < 2 ^ w → ab.2 < 2 ^ w →
    (encLoopG w s r ab).1 < 2 ^ w ∧ (encLoopG w s r ab).2 < 2 ^ w := by
  intro r
  induction r with
  | zero => intro ab h1 h2; exact ⟨h1, h2⟩
  | succ r _ =>
    intro ab h1 h2
    exact ⟨wAdd_lt _ _ _, wAdd_lt _ _ _⟩

theorem xor_xor_cancel (a b : Nat) : a ^^^ b ^^^ b = a := by
  rw [Nat.xor_assoc, Nat.xor_self, Nat.xor_zero]

theorem decLoopG_encLoopG {w : Nat} (hw0 : 0 < w) (hw : w ≤ 128) (s : List Nat)
    (hs : ∀ x ∈ s, x < 2 ^ w) :
    ∀ (r : Nat) (ab : Nat × Nat), ab.1 < 2 ^ w → ab.2 < 2 ^ w →
    decLoopG w s r (encLoopG w s r ab) = ab := by
  have hsge : ∀ k, s.getD k 0 < 2 ^ w := getD_lt_of_forall hs (Nat.two_pow_pos w)
  intro r
  induction r with
  | zero => intro ab _ _; rfl
  | succ r ih =>
    intro ab h1 h2
    obtain ⟨hA, hB⟩ := encLoopG_lt w s r ab h1 h2
    simp only [encLoopG, decLoopG]
    have hx1 : (encLoopG w s r ab).1 ^^^ (encLoopG w s r ab).2 < 2 ^ w :=
      Nat.xor_lt_two_pow hA hB
    have hx2 : (encLoopG w s r ab).2 ^^^
        wAdd w (rotl w ((encLoopG w s r ab).1 ^^^ (encLoopG w s r ab).2)
          (encLoopG w s r ab).2) (s.getD (2 * (r + 1)) 0) < 2 ^ w :=
      Nat.xor_lt_two_pow hB (wAdd_lt _ _ _)
    rw [wSub_wAdd hw (rotl_lt hx2 _) (hsge _), rotr_rotl hw0 hx2 _, xor_xor_cancel,
      wSub_wAdd hw (rotl_lt hx1 _) (hsge _), rotr_rotl hw0 hx1 _, xor_xor_cancel]
    exact ih ab h1 h2

end Generic

namespace Generic

theorem roundtrip_aux {nb : Nat} (hnb : 0 < nb) (h128 : 8 * nb ≤ 128)
    (r p q : Nat) (key input : List Nat) (hp : p < 2 ^ (8 * nb))
    (hlen : input.length = 2 * nb) (hb : ∀ b ∈ input, b < 2 ^ 8) :
    decrypt (8 * nb) r p q key (encrypt (8 * nb) r p q key input) = input := by
  have hw0 : 0 < 8 * nb := by omega
  have hnbw : 8 * nb / 8 = nb := by
    rw [Nat.mul_div_cancel_left nb (by norm_num)]
  have hs : ∀ x ∈ keyExpansion (8 * nb) r p q key, x < 2 ^ (8 * nb) :=
    keyExpansion_mem_lt key hp
  have hsge : ∀ k, (keyExpansion (8 * nb) r p q key).getD k 0 < 2 ^ (8 * nb) :=
    getD_lt_of_forall hs (Nat.two_pow_pos _)
  have hpb := parse_block nb hnb input hlen hb
  have htk : (input.take nb).length = nb := by
    rw [List.length_take]
    omega
  have hdk : (input.drop nb).length = nb := by
    rw [List.length_drop]
    omega
  have hbw1 : beWord (input.take nb) < 2 ^ (8 * nb) := by
    have h := beWord_lt (input.take nb) (fun b hbm => hb b (List.mem_of_mem_take hbm))
    rwa [htk] at h
  have hbw2 : beWord (input.drop nb) < 2 ^ (8 * nb) := by
    have h := beWord_lt (input.drop nb) (fun b hbm => hb b (List.mem_of_mem_drop hbm))
    rwa [hdk] at h
  unfold encrypt decrypt
  simp only [hnbw]
  rw [hpb]
  simp only [List.getD_cons_zero, List.getD_cons_succ]
  set s := keyExpansion (8 * nb) r p q key with hsdef
  set a0 := wAdd (8 * nb) (beWord (input.take nb)) (s.getD 0 0) with ha0
  set b0 := wAdd (8 * nb) (beWord (input.drop nb)) (s.getD 1 0) with hb0
  have hab := encLoopG_lt (8 * nb) s r (a0, b0) (wAdd_lt _ _ _) (wAdd_lt _ _ _)
  have hps : parse nb (8 * nb)
      (serialize nb [(encLoopG (8 * nb) s r (a0, b0)).1, (encLoopG (8 * nb) s r (a0, b0)).2]) =
      [(encLoopG (8 * nb) s r (a0, b0)).1, (encLoopG (8 * nb) s r (a0, b0)).2] := by
    apply parse_serialize nb (8 * nb) rfl hnb
    intro x hx
    rcases List.mem_cons.mp hx with h | h
    · rw [h]; exact hab.1
    · rw [List.mem_singleton.mp h]; exact hab.2
  rw [hps]
  simp only [List.getD_cons_zero, List.getD_cons_succ]
  have hinv : decLoopG (8 * nb) s r
      ((encLoopG (8 * nb) s r (a0, b0)).1, (encLoopG (8 * nb) s r (a0, b0)).2) = (a0, b0) :=
    decLoopG_encLoopG hw0 h128 s hs r (a0, b0) (wAdd_lt _ _ _) (wAdd_lt _ _ _)
  rw [hinv]
  rw [ha0, hb0, wSub_wAdd h128 hbw1 (hsge 0), wSub_wAdd h128 hbw2 (hsge 1)]
  rw [← hpb]
  exact serialize_parse_eq nb hnb input (by rw [hlen]; exact Nat.mul_mod_left 2 nb) hb

end Generic

/-- C2: for the generic engine at the widths whose arithmetic is defined
(16, 32 and 64 bits — `Word<u128>` panics computing `2_u128.pow(128)`, see
the final conjuncts), decrypting the encryption of any two-word block under
any key returns the original block; at width 128 the very first `Word`
addition or subtraction panics (`none`), so the round trip never completes
there — witnessed on the repository's own `word_test` operands `34 - 31`. -/
theorem c2_decrypt_encrypt_roundtrip :
    (∀ w, w ∈ ([16, 32, 64] : List Nat) → ∀ (r p q : Nat) (key input : List Nat),
      p < 2 ^ w → input.length = 2 * (w / 8) → (∀ b ∈ input, b < 2 ^ 8) →
      Generic.decrypt w r p q key (Generic.encrypt w r p q key input) = input) ∧
    Generic.subChecked 128 34 31 = none ∧
    Generic.addChecked 128 0xB7E15163 0x9E3779B9 = none := by
  refine ⟨?_, by rfl, by rfl⟩
  intro w hw r p q key input hp hlen hb
  simp only [List.mem_cons, List.not_mem_nil, or_false] at hw
  rcases hw with h | h | h <;> subst h
  · exact @Generic.roundtrip_aux 2 (by norm_num) (by norm_num) r p q key input
      hp hlen hb
  · exact @Generic.roundtrip_aux 4 (by norm_num) (by norm_num) r p q key input
      hp hlen hb
  · exact @Generic.roundtrip_aux 8 (by norm_num) (by norm_num) r p q key input
      hp hlen hb

/-- Witness for C2 at width 16, one round, key `[1, 2]`, block `[10, 20, 30, 40]`. -/
theorem c2_decrypt_encrypt_roundtrip_witness :
    (16 ∈ ([16, 32, 64] : List Nat) ∧ (0xB7E1 : Nat) < 2 ^ 16 ∧
      ([10, 20, 30, 40] : List Nat).length = 2 * (16 / 8) ∧
      (∀ b ∈ ([10, 20, 30, 40] : List Nat), b < 2 ^ 8)) ∧
    Generic.decrypt 16 1 0xB7E1 0x9E37 [1, 2]
      (Generic.encrypt 16 1 0xB7E1 0x9E37 [1, 2] [10, 20, 30, 40]) = [10, 20, 30, 40] :=
  ⟨⟨by decide, by decide, by decide, by decide⟩,
    c2_decrypt_encrypt_roundtrip.1 16 (by decide) 1 0xB7E1 0x9E37 [1, 2]
      [10, 20, 30, 40] (by decide) (by decide) (by decide)⟩

/-- C9 counterexample: with 16-bit words, 0 rounds and a 16-byte key the
number of key words `c = 8` exceeds `t = 2`, and the generic engine's
mixing loop — which runs `3 * t` iterations — produces a different table
than `3 * max(t, c)` iterations would. -/
theorem c9_counterexample_generic_mixes_3t :
    Generic.keyExpansion 16 0 0xB7E1 0x9E37
        [0, 1, 2, 3, 4, 5, 6, 7, 8, 9, 10, 11, 12, 13, 14, 15] ≠
      Generic.keyExpansionIters 16 0 0xB7E1 0x9E37
        [0, 1, 2, 3, 4, 5, 6, 7, 8, 9, 10, 11, 12, 13, 14, 15]
        (3 * max (2 * (0 + 1)) (divCeil 16 (16 / 8))) := by
  decide

/-- C9 (amended): the key-mixing phase of `Rc5::expand_key`
(`src/rc5/cypher.rs`) runs `3 * max(t, c)` iterations as the claim states;
the generic engine (`src/rc5.rs`) runs `3 * t` iterations regardless of the
number of key words `c`, which coincides with `3 * max(t, c)` exactly when
`c ≤ t` — when `c > t` it runs `3 * t`, not `3 * c` (see the
counterexample). In every implementation the indices advance as
`i = (i+1) % t`, `j = (j+1) % c` (part of the embedded definitions). -/
theorem c9_mixing_iteration_count :
    (∀ (w r p q : Nat) (key : List Nat),
      divCeil key.length (w / 8) ≤ 2 * (r + 1) →
      Generic.keyExpansion w r p q key =
        Generic.keyExpansionIters w r p q key
          (3 * max (2 * (r + 1)) (divCeil key.length (w / 8)))) ∧
    (∀ (key : List Nat) (r kl p q : Nat),
      Cypher.expandKey key r kl p q =
        Cypher.expandKeyIters key r kl p q (3 * max ((r + 1) * 2) (max kl 1 / 4))) := by
  constructor
  · intro w r p q key h
    unfold Generic.keyExpansion
    rw [Nat.max_eq_left h]
  · intro key r kl p q
    unfold Cypher.expandKey
    rw [Nat.mul_comm 3 (max ((r + 1) * 2) (max kl 1 / 4))]

/-- Witness for C9 at width 16, one round, a 2-byte key (`c = 1 ≤ t = 4`). -/
theorem c9_mixing_iteration_count_witness :
    divCeil (([1, 2] : List Nat)).length (16 / 8) ≤ 2 * (1 + 1) ∧
    Generic.keyExpansion 16 1 0xB7E1 0x9E37 [1, 2] =
      Generic.keyExpansionIters 16 1 0xB7E1 0x9E37 [1, 2]
        (3 * max (2 * (1 + 1)) (divCeil (([1, 2] : List Nat)).length (16 / 8))) :=
  ⟨by decide, c9_mixing_iteration_count.1 16 1 0xB7E1 0x9E37 [1, 2] (by decide)⟩

namespace WordMod

theorem add_eq_mod {w a b : Nat} (hg : 2 ^ w ≤ u128Max) :
    add w a b = some ((a + b) % 2 ^ w) := by
  unfold add
  rw [if_pos hg]

theorem sub_eq_mod {w a b : Nat} (hg : 2 ^ w ≤ u128Max) (ha : a < 2 ^ w) (hb : b < 2 ^ w) :
    sub w a b = some ((2 ^ w + a - b) % 2 ^ w) := by
  unfold sub
  rw [if_pos hg]
  simp only [Nat.mod_eq_of_lt ha, Nat.mod_eq_of_lt hb]
  congr 1
  by_cases hba : b < a
  · rw [if_pos hba]
    have h1 : 2 ^ w + a - b = a - b + 2 ^ w := by omega
    rw [h1, Nat.add_mod_right]
  · rw [if_neg hba]
    have h1 : 2 ^ w - 1 - b + a + 1 = 2 ^ w + a - b := by omega
    rw [h1]

end WordMod

namespace Generic

theorem addChecked_eq {w a b : Nat} (hg : 2 ^ w ≤ u128Max) (hw : w ≤ 128) :
    addChecked w a b = some ((a + b) % 2 ^ w) := by
  unfold addChecked
  rw [if_pos hg, Nat.mod_mod_of_dvd _ (Nat.pow_dvd_pow 2 hw)]

theorem subChecked_eq {w a b : Nat} (hg : 2 ^ w ≤ u128Max) (hw : w ≤ 128)
    (hb : b < 2 ^ w) :
    subChecked w a b = some ((2 ^ w + a - b) % 2 ^ w) := by
  unfold subChecked
  rw [if_pos hg, Nat.mod_mod_of_dvd _ (Nat.pow_dvd_pow 2 hw)]
  congr 1
  have hle : 2 ^ w ≤ 2 ^ 128 := Nat.pow_le_pow_right (by norm_num) hw
  obtain ⟨K, hK⟩ : 2 ^ w ∣ 2 ^ 128 - 2 ^ w := Nat.dvd_sub' (Nat.pow_dvd_pow 2 hw) dvd_rfl
  have h1 : 2 ^ 128 + a - b = 2 ^ w + a - b + 2 ^ w * K := by omega
  rw [h1, Nat.add_mul_mod_self_left]

end Generic

/-- C4: `add`/`sub` wrap modulo `2 ^ width` as claimed for the widths whose
arithmetic is defined — 8/16/32/64 bits in `src/word.rs` and 16/32/64 bits
in `src/rc5.rs` (which has no 8-bit instance) — including the claimed
16-bit example `1 - 2 = 0xFFFF`; but at width 128 both implementations
panic instead of wrapping: `src/word.rs` computes `max_val() + 1` and
`src/rc5.rs` computes `2_u128.pow(128)`, overflowing `u128` — contradicting
the repository's own `word_test`, which exercises `34_u128 - 31_u128`. -/
theorem c4_add_sub_wrap_for_defined_widths :
    (∀ w, w ∈ ([8, 16, 32, 64] : List Nat) → ∀ a b : Nat, a < 2 ^ w → b < 2 ^ w →
      WordMod.add w a b = some ((a + b) % 2 ^ w) ∧
      WordMod.sub w a b = some ((2 ^ w + a - b) % 2 ^ w)) ∧
    (∀ w, w ∈ ([16, 32, 64] : List Nat) → ∀ a b : Nat, a < 2 ^ w → b < 2 ^ w →
      Generic.addChecked w a b = some ((a + b) % 2 ^ w) ∧
      Generic.subChecked w a b = some ((2 ^ w + a - b) % 2 ^ w)) ∧
    WordMod.sub 16 1 2 = some 0xFFFF ∧
    WordMod.add 128 0 0 = none ∧ WordMod.sub 128 34 31 = none ∧
    Generic.addChecked 128 0 0 = none ∧ Generic.subChecked 128 34 31 = none := by
  refine ⟨?_, ?_, by rfl, by rfl, by rfl, by rfl, by rfl⟩
  · intro w hw a b ha hb
    simp only [List.mem_cons, List.not_mem_nil, or_false] at hw
    have hg : 2 ^ w ≤ u128Max := by
      rcases hw with h | h | h | h <;> subst h <;> unfold u128Max <;> norm_num
    exact ⟨WordMod.add_eq_mod hg, WordMod.sub_eq_mod hg ha hb⟩
  · intro w hw a b ha hb
    simp only [List.mem_cons, List.not_mem_nil, or_false] at hw
    have hg : 2 ^ w ≤ u128Max := by
      rcases hw with h | h | h <;> subst h <;> unfold u128Max <;> norm_num
    have h128 : w ≤ 128 := by
      rcases hw with h | h | h <;> omega
    exact ⟨Generic.addChecked_eq hg h128, Generic.subChecked_eq hg h128 hb⟩

/-- Witness for C4 at width 16 on the claim's own example operands. -/
theorem c4_add_sub_wrap_for_defined_widths_witness :
    (16 ∈ ([8, 16, 32, 64] : List Nat) ∧ (1 : Nat) < 2 ^ 16 ∧ (2 : Nat) < 2 ^ 16) ∧
    (WordMod.add 16 1 2 = some ((1 + 2) % 2 ^ 16) ∧
      WordMod.sub 16 1 2 = some ((2 ^ 16 + 1 - 2) % 2 ^ 16)) :=
  ⟨⟨by decide, by decide, by decide⟩,
    c4_add_sub_wrap_for_defined_widths.1 16 (by decide) 1 2 (by decide) (by decide)⟩


namespace BigNum

theorem natDigits_length (k : Nat) : ∀ n, (natDigits k n).length = k := by
  induction k with
  | zero => intro n; rfl
  | succ m ih => intro n; simp [natDigits, ih]

theorem natDigits_lt (k : Nat) : ∀ n x, x ∈ natDigits k n → x < 10 := by
  induction k with
  | zero => intro n x hx; simp [natDigits] at hx
  | succ m ih =>
    intro n x hx
    simp only [natDigits, List.mem_cons] at hx
    rcases hx with h | h
    · subst h; exact Nat.mod_lt n (by norm_num)
    · exact ih _ x h

theorem natDigits_zero (k : Nat) : natDigits k 0 = List.replicate k 0 := by
  induction k with
  | zero => rfl
  | succ m ih => simp [natDigits, ih, List.replicate_succ]

theorem natDigits_add (a b : Nat) : ∀ n,
    natDigits (a + b) n = natDigits a n ++ natDigits b (n / 10 ^ a) := by
  induction a with
  | zero => intro n; simp [natDigits]
  | succ m ih =>
    intro n
    rw [show m + 1 + b = (m + b) + 1 from by omega]
    simp only [natDigits, List.cons_append]
    rw [ih]
    congr 2
    rw [Nat.div_div_eq_div_mul]
    congr 1
    rw [pow_succ, Nat.mul_comm]

theorem natDigits_mod (k : Nat) : ∀ n, natDigits k (n % 10 ^ k) = natDigits k n := by
  induction k with
  | zero => intro n; rfl
  | succ m ih =>
    intro n
    simp only [natDigits]
    congr 1
    · exact Nat.mod_mod_of_dvd n (dvd_pow_self 10 (Nat.succ_ne_zero m))
    · rw [show (10:Nat) ^ (m + 1) = 10 * 10 ^ m from by rw [pow_succ, Nat.mul_comm],
        Nat.mod_mul_right_div_self]
      exact ih (n / 10)

end BigNum

namespace BigNum

theorem dblOut_length (xs : List Nat) : ∀ c, (dblOut c xs).length = xs.length := by
  induction xs with
  | nil => intro c; rfl
  | cons a r ih => intro c; simp [dblOut, ih]

theorem dblOut_natDigits (k : Nat) : ∀ n c, n < 10 ^ k →
    dblOut c ((natDigits k n).map (fun d => d + 48)) = natDigits k (n * 2 + c) := by
  induction k with
  | zero => intro n c h; rfl
  | succ m ih =>
    intro n c h
    simp only [natDigits, List.map_cons, dblOut, Nat.add_sub_cancel]
    have hdiv : n / 10 < 10 ^ m := by
      rw [Nat.div_lt_iff_lt_mul (by norm_num)]
      calc n < 10 ^ (m + 1) := h
        _ = 10 ^ m * 10 := by rw [pow_succ]
    rw [ih (n / 10) ((n % 10 * 2 + c) / 10) hdiv]
    congr 1
    · omega
    · congr 1
      omega

theorem dblCarry_natDigits (k : Nat) : ∀ n c, n < 10 ^ k →
    dblCarry c ((natDigits k n).map (fun d => d + 48)) = (n * 2 + c) / 10 ^ k := by
  induction k with
  | zero => intro n c h; simp [natDigits, dblCarry]; omega
  | succ m ih =>
    intro n c h
    simp only [natDigits, List.map_cons, dblCarry, Nat.add_sub_cancel]
    have hdiv : n / 10 < 10 ^ m := by
      rw [Nat.div_lt_iff_lt_mul (by norm_num)]
      calc n < 10 ^ (m + 1) := h
        _ = 10 ^ m * 10 := by rw [pow_succ]
    rw [ih (n / 10) ((n % 10 * 2 + c) / 10) hdiv]
    rw [show (10:Nat) ^ (m + 1) = 10 * 10 ^ m from by rw [pow_succ, Nat.mul_comm]]
    rw [← Nat.div_div_eq_div_mul]
    congr 1
    omega

theorem mulLoop_dot (ys : List Nat) (k : Nat) (buf : List Nat) (dot : Nat) :
    mulLoop [50] (46 :: ys) k buf dot = mulLoop [50] ys (k + 1) buf k := rfl

end BigNum

namespace BigNum

theorem mulLoop_run (xs : List Nat) :
    ∀ ys k c m dot, (∀ a ∈ xs, a ≠ 46) → xs.length ≤ m →
    mulLoop [50] (xs ++ ys) k (c :: List.replicate m 0) dot =
      (dblOut c xs ++
          (mulLoop [50] ys (k + xs.length) (dblCarry c xs :: List.replicate (m - xs.length) 0) dot).1,
        (mulLoop [50] ys (k + xs.length) (dblCarry c xs :: List.replicate (m - xs.length) 0) dot).2) := by
  induction xs with
  | nil =>
    intro ys k c m dot h46 hm
    simp [dblOut, dblCarry]
  | cons a rest ih =>
    intro ys k c m dot h46 hm
    have ha : a ≠ 46 := h46 a (List.mem_cons_self a rest)
    have hrest : ∀ x ∈ rest, x ≠ 46 := fun x hx => h46 x (List.mem_cons_of_mem a hx)
    simp only [List.length_cons] at hm
    obtain ⟨m1, rfl⟩ : ∃ m1, m = m1 + 1 := ⟨m - 1, by omega⟩
    rw [List.cons_append, List.replicate_succ, mulLoop, if_neg ha]
    simp only [mulDigit, Nat.add_zero, Nat.zero_add,
      show (50:Nat) - 48 = 2 from rfl]
    rw [ih ys (k + 1) (((a - 48) * 2 + c) / 10) m1 dot hrest (by omega)]
    simp only [dblOut, dblCarry, List.length_cons, List.cons_append]
    rw [show k + (rest.length + 1) = k + 1 + rest.length from by omega,
      show m1 + 1 - (rest.length + 1) = m1 - rest.length from by omega]

end BigNum

namespace BigNum

theorem mulLoop_run_nil (xs : List Nat) (k c m dot : Nat)
    (h46 : ∀ a ∈ xs, a ≠ 46) (hm : xs.length ≤ m) :
    mulLoop [50] xs k (c :: List.replicate m 0) dot
      = (dblOut c xs ++ dblCarry c xs :: List.replicate (m - xs.length) 0, dot) := by
  have h := mulLoop_run xs [] k c m dot h46 hm
  rw [List.append_nil] at h
  rw [h]
  rfl

theorem insertIdx_append_self (A : List Nat) (x : Nat) :
    ∀ B, List.insertIdx A.length x (A ++ B) = A ++ x :: B := by
  induction A with
  | nil => intro B; rfl
  | cons a r ih => intro B; simp only [List.length_cons, List.cons_append,
      List.insertIdx_succ_cons, ih]

theorem insertIdx_append_of_length (n : Nat) (A B : List Nat) (x : Nat)
    (h : A.length = n) :
    List.insertIdx n x (A ++ B) = A ++ x :: B := by
  subst h
  exact insertIdx_append_self A x B

theorem reverse_append_cons (A B : List Nat) (x : Nat) :
    (A ++ x :: B).reverse = B.reverse ++ x :: A.reverse := by
  simp [List.reverse_append]

theorem map_render_of_digits (l : List Nat) (h : ∀ x ∈ l, x < 10) :
    l.map (fun c => if c = 46 then c else c + 48) = l.map (fun d => d + 48) :=
  List.map_congr_left (fun x hx => by
    rw [if_neg (by have := h x hx; omega)])

theorem dropWhile_replicate_48 (n : Nat) (l : List Nat) :
    List.dropWhile (fun c => c = 48) (List.replicate n 48 ++ l)
      = List.dropWhile (fun c => c = 48) l := by
  induction n with
  | zero => rfl
  | succ m ih => simp only [List.replicate_succ, List.cons_append,
      List.dropWhile_cons, decide_True, ih, if_true]

theorem trimZeros_eq (l : List Nat) (h : l.dropWhile (fun c => c = 48) ≠ []) :
    trimZeros l = l.dropWhile (fun c => c = 48) := by
  unfold trimZeros
  cases hdw : l.dropWhile (fun c => c = 48) with
  | nil => exact absurd hdw h
  | cons a t => rfl

theorem takeWhile_digits (B : List Nat) : ∀ A : List Nat, (∀ x ∈ A, x ≠ 46) →
    List.takeWhile (fun c => c ≠ 46) (A ++ 46 :: B) = A := by
  intro A
  induction A with
  | nil => intro h; simp [List.takeWhile_cons]
  | cons a r ih =>
    intro h
    have ha : a ≠ 46 := h a (List.mem_cons_self a r)
    simp only [List.cons_append, List.takeWhile_cons]
    rw [if_pos (by simpa using ha)]
    rw [ih (fun x hx => h x (List.mem_cons_of_mem a hx))]

end BigNum

namespace BigNum

theorem dropWhile_render_natDigits (L il2 W : Nat) (tail : List Nat)
    (hL : il2 ≤ L) (hhi : W < 10 ^ il2) (hlo : 10 ^ (il2 - 1) ≤ W) (hW : 0 < W) :
    List.dropWhile (fun c => c = 48)
        ((natDigits L W).reverse.map (fun d => d + 48) ++ 46 :: tail)
      = (natDigits il2 W).reverse.map (fun d => d + 48) ++ 46 :: tail := by
  have hil2 : 0 < il2 := by
    rcases Nat.eq_zero_or_pos il2 with h0 | h
    · subst h0; simp at hhi; omega
    · exact h
  obtain ⟨j, rfl⟩ : ∃ j, il2 = j + 1 := ⟨il2 - 1, by omega⟩
  have hdj : W / 10 ^ j < 10 := by
    rw [Nat.div_lt_iff_lt_mul (pow_pos (by norm_num) j)]
    calc W < 10 ^ (j + 1) := hhi
      _ = 10 * 10 ^ j := by rw [pow_succ, Nat.mul_comm]
  have hlodig : 1 ≤ W / 10 ^ j := by
    rw [Nat.le_div_iff_mul_le (pow_pos (by norm_num) j)]
    simpa using hlo
  have htop : natDigits (j + 1) W = natDigits j W ++ [W / 10 ^ j] := by
    rw [natDigits_add j 1 W]
    congr 1
    simp [natDigits, Nat.mod_eq_of_lt hdj]
  have hsplit : natDigits L W
      = (natDigits j W ++ [W / 10 ^ j]) ++ List.replicate (L - (j + 1)) 0 := by
    conv_lhs => rw [show L = (j + 1) + (L - (j + 1)) from by omega]
    rw [natDigits_add, Nat.div_eq_of_lt hhi, natDigits_zero, htop]
  rw [hsplit, htop]
  simp only [List.reverse_append, List.reverse_replicate, List.reverse_cons,
    List.reverse_nil, List.nil_append, List.map_append, List.map_cons,
    List.map_replicate, List.cons_append, List.append_assoc, Nat.zero_add]
  rw [dropWhile_replicate_48]
  rw [List.dropWhile_cons, if_neg (by simp; omega)]

end BigNum

namespace BigNum

theorem decString_length (il v fl : Nat) :
    (decString il v fl).length = il + 1 + fl := by
  simp [decString, natDigits_length]
  omega

theorem truncate_decString (il v fl : Nat) :
    truncate (decString il v fl)
      = (natDigits il (v / 10 ^ fl)).reverse.map (fun d => d + 48) := by
  unfold truncate decString
  apply takeWhile_digits
  intro x hx
  simp only [List.mem_map, List.mem_reverse] at hx
  obtain ⟨d, _, rfl⟩ := hx
  omega

theorem multiply_eq (num1 : List Nat) (num2 : Nat) (le : List Nat) (dot : Nat) (out : List Nat)
    (hn1 : num1.length ≠ 0)
    (hn2 : ((Nat.toDigits 10 num2).map Char.toNat).length ≠ 0)
    (hA : mulLoop ((Nat.toDigits 10 num2).map Char.toNat).reverse num1.reverse 0
      (List.replicate (num1.length + ((Nat.toDigits 10 num2).map Char.toNat).length) 0) 0 = (le, dot))
    (hdot : dot ≠ 0)
    (hB : trimZeros ((List.insertIdx dot 46 le).reverse.map
      (fun c => if c = 46 then c else c + 48)) = out) :
    multiply num1 num2 = out := by
  unfold multiply
  simp only [hA]
  rw [if_neg (not_or.mpr ⟨hn1, hn2⟩), if_pos hdot]
  exact hB

theorem double_eq (num1 : List Nat) (le : List Nat) (dot : Nat) (out : List Nat)
    (hn1 : num1.length ≠ 0)
    (hA : mulLoop [50] num1.reverse 0 (List.replicate (num1.length + 1) 0) 0 = (le, dot))
    (hdot : dot ≠ 0)
    (hB : trimZeros ((List.insertIdx dot 46 le).reverse.map
      (fun c => if c = 46 then c else c + 48)) = out) :
    multiply num1 2 = out :=
  multiply_eq num1 2 le dot out hn1 (by decide) hA hdot hB

theorem iterDouble_shift (n : Nat) (s t : List Nat) (h : multiply s 2 = t) :
    iterDouble (n + 1) s = iterDouble n t := by
  rw [← h]; rfl

theorem iterDouble_add (m n : Nat) : ∀ s,
    iterDouble (m + n) s = iterDouble m (iterDouble n s) := by
  induction n with
  | zero => intro s; rfl
  | succ k ih =>
    intro s
    rw [Nat.add_succ]
    show iterDouble (m + k) (multiply s 2) = _
    rw [ih]
    rfl

end BigNum

namespace BigNum

theorem multiply_two_dec (il fl il2 v : Nat)
    (hfl : 0 < fl)
    (hv : v < 10 ^ (il + fl))
    (hlo : 10 ^ (il2 - 1) ≤ v * 2 / 10 ^ fl)
    (hhi : v * 2 / 10 ^ fl < 10 ^ il2)
    (hle : il2 ≤ il + 2)
    (hpos : 0 < v * 2 / 10 ^ fl) :
    multiply (decString il v fl) 2 = decString il2 (v * 2) fl := by
  have h10fl : 0 < (10:Nat) ^ fl := pow_pos (by norm_num) fl
  have h10il : 0 < (10:Nat) ^ il := pow_pos (by norm_num) il
  have hvf10 : v % 10 ^ fl < 10 ^ fl := Nat.mod_lt _ h10fl
  have hvi10 : v / 10 ^ fl < 10 ^ il := by
    rw [Nat.div_lt_iff_lt_mul h10fl]
    calc v < 10 ^ (il + fl) := hv
      _ = 10 ^ il * 10 ^ fl := pow_add 10 il fl
  have hdm : 10 ^ fl * (v / 10 ^ fl) + v % 10 ^ fl = v := Nat.div_add_mod v (10 ^ fl)
  have hv2 : v * 2 = v / 10 ^ fl * 2 * 10 ^ fl + v % 10 ^ fl * 2 := by
    conv_lhs => rw [← hdm]
    ring
  -- the two digit-character runs of the reversed input
  have hF46 : ∀ x ∈ (natDigits fl (v % 10 ^ fl)).map (fun d => d + 48), x ≠ 46 := by
    intro x hx
    simp only [List.mem_map] at hx
    obtain ⟨d, _, rfl⟩ := hx
    omega
  have hI46 : ∀ x ∈ (natDigits il (v / 10 ^ fl)).map (fun d => d + 48), x ≠ 46 := by
    intro x hx
    simp only [List.mem_map] at hx
    obtain ⟨d, _, rfl⟩ := hx
    omega
  have hFlen : ((natDigits fl (v % 10 ^ fl)).map (fun d => d + 48)).length = fl := by
    simp [natDigits_length]
  have hIlen : ((natDigits il (v / 10 ^ fl)).map (fun d => d + 48)).length = il := by
    simp [natDigits_length]
  have hrev : (decString il v fl).reverse
      = (natDigits fl (v % 10 ^ fl)).map (fun d => d + 48) ++
          46 :: (natDigits il (v / 10 ^ fl)).map (fun d => d + 48) := by
    unfold decString
    rw [reverse_append_cons]
    simp [List.map_reverse]
  -- carries
  have hc1 : dblCarry 0 ((natDigits fl (v % 10 ^ fl)).map (fun d => d + 48))
      = v % 10 ^ fl * 2 / 10 ^ fl := by
    rw [dblCarry_natDigits fl (v % 10 ^ fl) 0 hvf10, Nat.add_zero]
  have hc1le : v % 10 ^ fl * 2 / 10 ^ fl < 2 := by
    rw [Nat.div_lt_iff_lt_mul h10fl]
    omega
  have hW : v / 10 ^ fl * 2 + v % 10 ^ fl * 2 / 10 ^ fl = v * 2 / 10 ^ fl := by
    rw [hv2, show v / 10 ^ fl * 2 * 10 ^ fl + v % 10 ^ fl * 2
      = v % 10 ^ fl * 2 + v / 10 ^ fl * 2 * 10 ^ fl from by ring,
      Nat.add_mul_div_right _ _ h10fl]
    omega
  have hc2 : dblCarry (v % 10 ^ fl * 2 / 10 ^ fl)
      ((natDigits il (v / 10 ^ fl)).map (fun d => d + 48))
      = v * 2 / 10 ^ fl / 10 ^ il := by
    rw [dblCarry_natDigits il (v / 10 ^ fl) _ hvi10, hW]
  -- the little-endian buffer after the whole digit loop
  have hA : mulLoop [50] (decString il v fl).reverse 0
      (List.replicate ((decString il v fl).length + 1) 0) 0
      = (natDigits fl (v * 2 % 10 ^ fl) ++
          (natDigits il (v * 2 / 10 ^ fl) ++
            natDigits 2 (v * 2 / 10 ^ fl / 10 ^ il)), fl) := by
    rw [hrev, decString_length,
      show il + 1 + fl + 1 = (il + fl + 1) + 1 from by omega, List.replicate_succ]
    rw [mulLoop_run _ _ 0 0 (il + fl + 1) 0 hF46 (by rw [hFlen]; omega)]
    rw [hFlen, Nat.zero_add, show il + fl + 1 - fl = il + 1 from by omega]
    rw [mulLoop_dot]
    rw [mulLoop_run_nil _ _ _ _ _ hI46 (by rw [hIlen]; omega)]
    rw [hIlen, show il + 1 - il = 1 from by omega]
    congr 1
    · -- fractional digits
      rw [dblOut_natDigits fl (v % 10 ^ fl) 0 hvf10, Nat.add_zero]
      congr 1
      · calc natDigits fl (v % 10 ^ fl * 2)
            = natDigits fl (v % 10 ^ fl * 2 % 10 ^ fl) := (natDigits_mod fl _).symm
          _ = natDigits fl (v * 2 % 10 ^ fl) := by
              congr 1
              conv_rhs => rw [hv2]
              rw [show v / 10 ^ fl * 2 * 10 ^ fl + v % 10 ^ fl * 2
                = v % 10 ^ fl * 2 + v / 10 ^ fl * 2 * 10 ^ fl from by ring]
              rw [Nat.add_mul_mod_self_right]
      · -- integer digits plus the two carry slots
        rw [hc1, dblOut_natDigits il (v / 10 ^ fl) _ hvi10, hW, hc2]
        -- [c2, 0] = natDigits 2 c2 with c2 <= 1
        have hc2le : v * 2 / 10 ^ fl / 10 ^ il < 2 := by
          rw [← hW, Nat.div_lt_iff_lt_mul h10il]
          omega
        simp [natDigits]
        omega
  -- cleanup of the rendered, dotted, reversed buffer
  have hB : trimZeros ((List.insertIdx fl 46
        (natDigits fl (v * 2 % 10 ^ fl) ++
          (natDigits il (v * 2 / 10 ^ fl) ++
            natDigits 2 (v * 2 / 10 ^ fl / 10 ^ il)))).reverse.map
        (fun c => if c = 46 then c else c + 48))
      = decString il2 (v * 2) fl := by
    rw [← natDigits_add il 2 (v * 2 / 10 ^ fl)]
    rw [insertIdx_append_of_length fl _ _ 46 (natDigits_length fl _)]
    rw [reverse_append_cons]
    rw [List.map_append, List.map_cons]
    rw [map_render_of_digits _ (fun x hx =>
      natDigits_lt (il + 2) _ x (List.mem_reverse.mp hx))]
    rw [map_render_of_digits _ (fun x hx =>
      natDigits_lt fl _ x (List.mem_reverse.mp hx))]
    have hdrop := dropWhile_render_natDigits (il + 2) il2 (v * 2 / 10 ^ fl)
      ((natDigits fl (v * 2 % 10 ^ fl)).reverse.map (fun d => d + 48))
      (by omega) hhi hlo hpos
    rw [show (if (46:Nat) = 46 then (46:Nat) else 46 + 48) = 46 from rfl]
    rw [trimZeros_eq _ (by rw [hdrop]; simp), hdrop]
    rfl
  exact double_eq _ _ fl _ (by rw [decString_length]; omega) hA (by omega) hB

end BigNum

namespace BigNum

theorem bridgeE : ascii eulerMinus2 = decString 1 (eulerFrac * 2 ^ 0) 835 := by rfl

theorem bridgeP : ascii goldenRatioMinus1 = decString 1 (goldenFrac * 2 ^ 0) 838 := by rfl

theorem stepE0 : multiply (decString 1 (eulerFrac * 2 ^ 0) 835) 2
    = decString 1 (eulerFrac * 2 ^ 1) 835 :=
  multiply_two_dec 1 835 1 _ (by norm_num) (by decide) (by decide)
    (by decide) (by decide) (by decide)

theorem stepE1 : multiply (decString 1 (eulerFrac * 2 ^ 1) 835) 2
    = decString 1 (eulerFrac * 2 ^ 2) 835 :=
  multiply_two_dec 1 835 1 _ (by norm_num) (by decide) (by decide)
    (by decide) (by decide) (by decide)

theorem stepE2 : multiply (decString 1 (eulerFrac * 2 ^ 2) 835) 2
    = decString 1 (eulerFrac * 2 ^ 3) 835 :=
  multiply_two_dec 1 835 1 _ (by norm_num) (by decide) (by decide)
    (by decide) (by decide) (by decide)

theorem stepE3 : multiply (decString 1 (eulerFrac * 2 ^ 3) 835) 2
    = decString 2 (eulerFrac * 2 ^ 4) 835 :=
  multiply_two_dec 1 835 2 _ (by norm_num) (by decide) (by decide)
    (by decide) (by decide) (by decide)

theorem stepE4 : multiply (decString 2 (eulerFrac * 2 ^ 4) 835) 2
    = decString 2 (eulerFrac * 2 ^ 5) 835 :=
  multiply_two_dec 2 835 2 _ (by norm_num) (by decide) (by decide)
    (by decide) (by decide) (by decide)

theorem stepE5 : multiply (decString 2 (eulerFrac * 2 ^ 5) 835) 2
    = decString 2 (eulerFrac * 2 ^ 6) 835 :=
  multiply_two_dec 2 835 2 _ (by norm_num) (by decide) (by decide)
    (by decide) (by decide) (by decide)

theorem stepE6 : multiply (decString 2 (eulerFrac * 2 ^ 6) 835) 2
    = decString 2 (eulerFrac * 2 ^ 7) 835 :=
  multiply_two_dec 2 835 2 _ (by norm_num) (by decide) (by decide)
    (by decide) (by decide) (by decide)

theorem stepE7 : multiply (decString 2 (eulerFrac * 2 ^ 7) 835) 2
    = decString 3 (eulerFrac * 2 ^ 8) 835 :=
  multiply_two_dec 2 835 3 _ (by norm_num) (by decide) (by decide)
    (by decide) (by decide) (by decide)

theorem stepE8 : multiply (decString 3 (eulerFrac * 2 ^ 8) 835) 2
    = decString 3 (eulerFrac * 2 ^ 9) 835 :=
  multiply_two_dec 3 835 3 _ (by norm_num) (by decide) (by decide)
    (by decide) (by decide) (by decide)

theorem stepE9 : multiply (decString 3 (eulerFrac * 2 ^ 9) 835) 2
    = decString 3 (eulerFrac * 2 ^ 10) 835 :=
  multiply_two_dec 3 835 3 _ (by norm_num) (by decide) (by decide)
    (by decide) (by decide) (by decide)

theorem stepE10 : multiply (decString 3 (eulerFrac * 2 ^ 10) 835) 2
    = decString 4 (eulerFrac * 2 ^ 11) 835 :=
  multiply_two_dec 3 835 4 _ (by norm_num) (by decide) (by decide)
    (by decide) (by decide) (by decide)

theorem stepE11 : multiply (decString 4 (eulerFrac * 2 ^ 11) 835) 2
    = decString 4 (eulerFrac * 2 ^ 12) 835 :=
  multiply_two_dec 4 835 4 _ (by norm_num) (by decide) (by decide)
    (by decide) (by decide) (by decide)

theorem stepE12 : multiply (decString 4 (eulerFrac * 2 ^ 12) 835) 2
    = decString 4 (eulerFrac * 2 ^ 13) 835 :=
  multiply_two_dec 4 835 4 _ (by norm_num) (by decide) (by decide)
    (by decide) (by decide) (by decide)

theorem stepE13 : multiply (decString 4 (eulerFrac * 2 ^ 13) 835) 2
    = decString 5 (eulerFrac * 2 ^ 14) 835 :=
  multiply_two_dec 4 835 5 _ (by norm_num) (by decide) (by decide)
    (by decide) (by decide) (by decide)

theorem stepE14 : multiply (decString 5 (eulerFrac * 2 ^ 14) 835) 2
    = decString 5 (eulerFrac * 2 ^ 15) 835 :=
  multiply_two_dec 5 835 5 _ (by norm_num) (by decide) (by decide)
    (by decide) (by decide) (by decide)

theorem stepE15 : multiply (decString 5 (eulerFrac * 2 ^ 15) 835) 2
    = decString 5 (eulerFrac * 2 ^ 16) 835 :=
  multiply_two_dec 5 835 5 _ (by norm_num) (by decide) (by decide)
    (by decide) (by decide) (by decide)

theorem stepE16 : multiply (decString 5 (eulerFrac * 2 ^ 16) 835) 2
    = decString 5 (eulerFrac * 2 ^ 17) 835 :=
  multiply_two_dec 5 835 5 _ (by norm_num) (by decide) (by decide)
    (by decide) (by decide) (by decide)

theorem stepE17 : multiply (decString 5 (eulerFrac * 2 ^ 17) 835) 2
    = decString 6 (eulerFrac * 2 ^ 18) 835 :=
  multiply_two_dec 5 835 6 _ (by norm_num) (by decide) (by decide)
    (by decide) (by decide) (by decide)

theorem stepE18 : multiply (decString 6 (eulerFrac * 2 ^ 18) 835) 2
    = decString 6 (eulerFrac * 2 ^ 19) 835 :=
  multiply_two_dec 6 835 6 _ (by norm_num) (by decide) (by decide)
    (by decide) (by decide) (by decide)

theorem stepE19 : multiply (decString 6 (eulerFrac * 2 ^ 19) 835) 2
    = decString 6 (eulerFrac * 2 ^ 20) 835 :=
  multiply_two_dec 6 835 6 _ (by norm_num) (by decide) (by decide)
    (by decide) (by decide) (by decide)

theorem stepE20 : multiply (decString 6 (eulerFrac * 2 ^ 20) 835) 2
    = decString 7 (eulerFrac * 2 ^ 21) 835 :=
  multiply_two_dec 6 835 7 _ (by norm_num) (by decide) (by decide)
    (by decide) (by decide) (by decide)

theorem stepE21 : multiply (decString 7 (eulerFrac * 2 ^ 21) 835) 2
    = decString 7 (eulerFrac * 2 ^ 22) 835 :=
  multiply_two_dec 7 835 7 _ (by norm_num) (by decide) (by decide)
    (by decide) (by decide) (by decide)

theorem stepE22 : multiply (decString 7 (eulerFrac * 2 ^ 22) 835) 2
    = decString 7 (eulerFrac * 2 ^ 23) 835 :=
  multiply_two_dec 7 835 7 _ (by norm_num) (by decide) (by decide)
    (by decide) (by decide) (by decide)

theorem stepE23 : multiply (decString 7 (eulerFrac * 2 ^ 23) 835) 2
    = decString 8 (eulerFrac * 2 ^ 24) 835 :=
  multiply_two_dec 7 835 8 _ (by norm_num) (by decide) (by decide)
    (by decide) (by decide) (by decide)

theorem stepE24 : multiply (decString 8 (eulerFrac * 2 ^ 24) 835) 2
    = decString 8 (eulerFrac * 2 ^ 25) 835 :=
  multiply_two_dec 8 835 8 _ (by norm_num) (by decide) (by decide)
    (by decide) (by decide) (by decide)

theorem stepE25 : multiply (decString 8 (eulerFrac * 2 ^ 25) 835) 2
    = decString 8 (eulerFrac * 2 ^ 26) 835 :=
  multiply_two_dec 8 835 8 _ (by norm_num) (by decide) (by decide)
    (by decide) (by decide) (by decide)

theorem stepE26 : multiply (decString 8 (eulerFrac * 2 ^ 26) 835) 2
    = decString 8 (eulerFrac * 2 ^ 27) 835 :=
  multiply_two_dec 8 835 8 _ (by norm_num) (by decide) (by decide)
    (by decide) (by decide) (by decide)

theorem stepE27 : multiply (decString 8 (eulerFrac * 2 ^ 27) 835) 2
    = decString 9 (eulerFrac * 2 ^ 28) 835 :=
  multiply_two_dec 8 835 9 _ (by norm_num) (by decide) (by decide)
    (by decide) (by decide) (by decide)

theorem stepE28 : multiply (decString 9 (eulerFrac * 2 ^ 28) 835) 2
    = decString 9 (eulerFrac * 2 ^ 29) 835 :=
  multiply_two_dec 9 835 9 _ (by norm_num) (by decide) (by decide)
    (by decide) (by decide) (by decide)

theorem stepE29 : multiply (decString 9 (eulerFrac * 2 ^ 29) 835) 2
    = decString 9 (eulerFrac * 2 ^ 30) 835 :=
  multiply_two_dec 9 835 9 _ (by norm_num) (by decide) (by decide)
    (by decide) (by decide) (by decide)

theorem stepE30 : multiply (decString 9 (eulerFrac * 2 ^ 30) 835) 2
    = decString 10 (eulerFrac * 2 ^ 31) 835 :=
  multiply_two_dec 9 835 10 _ (by norm_num) (by decide) (by decide)
    (by decide) (by decide) (by decide)

theorem stepE31 : multiply (decString 10 (eulerFrac * 2 ^ 31) 835) 2
    = decString 10 (eulerFrac * 2 ^ 32) 835 :=
  multiply_two_dec 10 835 10 _ (by norm_num) (by decide) (by decide)
    (by decide) (by decide) (by decide)

theorem stepE32 : multiply (decString 10 (eulerFrac * 2 ^ 32) 835) 2
    = decString 10 (eulerFrac * 2 ^ 33) 835 :=
  multiply_two_dec 10 835 10 _ (by norm_num) (by decide) (by decide)
    (by decide) (by decide) (by decide)

theorem stepE33 : multiply (decString 10 (eulerFrac * 2 ^ 33) 835) 2
    = decString 11 (eulerFrac * 2 ^ 34) 835 :=
  multiply_two_dec 10 835 11 _ (by norm_num) (by decide) (by decide)
    (by decide) (by decide) (by decide)

theorem stepE34 : multiply (decString 11 (eulerFrac * 2 ^ 34) 835) 2
    = decString 11 (eulerFrac * 2 ^ 35) 835 :=
  multiply_two_dec 11 835 11 _ (by norm_num) (by decide) (by decide)
    (by decide) (by decide) (by decide)

theorem stepE35 : multiply (decString 11 (eulerFrac * 2 ^ 35) 835) 2
    = decString 11 (eulerFrac * 2 ^ 36) 835 :=
  multiply_two_dec 11 835 11 _ (by norm_num) (by decide) (by decide)
    (by decide) (by decide) (by decide)

theorem stepE36 : multiply (decString 11 (eulerFrac * 2 ^ 36) 835) 2
    = decString 11 (eulerFrac * 2 ^ 37) 835 :=
  multiply_two_dec 11 835 11 _ (by norm_num) (by decide) (by decide)
    (by decide) (by decide) (by decide)

theorem stepE37 : multiply (decString 11 (eulerFrac * 2 ^ 37) 835) 2
    = decString 12 (eulerFrac * 2 ^ 38) 835 :=
  multiply_two_dec 11 835 12 _ (by norm_num) (by decide) (by decide)
    (by decide) (by decide) (by decide)

theorem stepE38 : multiply (decString 12 (eulerFrac * 2 ^ 38) 835) 2
    = decString 12 (eulerFrac * 2 ^ 39) 835 :=
  multiply_two_dec 12 835 12 _ (by norm_num) (by decide) (by decide)
    (by decide) (by decide) (by decide)

theorem stepE39 : multiply (decString 12 (eulerFrac * 2 ^ 39) 835) 2
    = decString 12 (eulerFrac * 2 ^ 40) 835 :=
  multiply_two_dec 12 835 12 _ (by norm_num) (by decide) (by decide)
    (by decide) (by decide) (by decide)

theorem stepE40 : multiply (decString 12 (eulerFrac * 2 ^ 40) 835) 2
    = decString 13 (eulerFrac * 2 ^ 41) 835 :=
  multiply_two_dec 12 835 13 _ (by norm_num) (by decide) (by decide)
    (by decide) (by decide) (by decide)

theorem stepE41 : multiply (decString 13 (eulerFrac * 2 ^ 41) 835) 2
    = decString 13 (eulerFrac * 2 ^ 42) 835 :=
  multiply_two_dec 13 835 13 _ (by norm_num) (by decide) (by decide)
    (by decide) (by decide) (by decide)

theorem stepE42 : multiply (decString 13 (eulerFrac * 2 ^ 42) 835) 2
    = decString 13 (eulerFrac * 2 ^ 43) 835 :=
  multiply_two_dec 13 835 13 _ (by norm_num) (by decide) (by decide)
    (by decide) (by decide) (by decide)

theorem stepE43 : multiply (decString 13 (eulerFrac * 2 ^ 43) 835) 2
    = decString 14 (eulerFrac * 2 ^ 44) 835 :=
  multiply_two_dec 13 835 14 _ (by norm_num) (by decide) (by decide)
    (by decide) (by decide) (by decide)

theorem stepE44 : multiply (decString 14 (eulerFrac * 2 ^ 44) 835) 2
    = decString 14 (eulerFrac * 2 ^ 45) 835 :=
  multiply_two_dec 14 835 14 _ (by norm_num) (by decide) (by decide)
    (by decide) (by decide) (by decide)

theorem stepE45 : multiply (decString 14 (eulerFrac * 2 ^ 45) 835) 2
    = decString 14 (eulerFrac * 2 ^ 46) 835 :=
  multiply_two_dec 14 835 14 _ (by norm_num) (by decide) (by decide)
    (by decide) (by decide) (by decide)

theorem stepE46 : multiply (decString 14 (eulerFrac * 2 ^ 46) 835) 2
    = decString 15 (eulerFrac * 2 ^ 47) 835 :=
  multiply_two_dec 14 835 15 _ (by norm_num) (by decide) (by decide)
    (by decide) (by decide) (by decide)

theorem stepE47 : multiply (decString 15 (eulerFrac * 2 ^ 47) 835) 2
    = decString 15 (eulerFrac * 2 ^ 48) 835 :=
  multiply_two_dec 15 835 15 _ (by norm_num) (by decide) (by decide)
    (by decide) (by decide) (by decide)

theorem stepE48 : multiply (decString 15 (eulerFrac * 2 ^ 48) 835) 2
    = decString 15 (eulerFrac * 2 ^ 49) 835 :=
  multiply_two_dec 15 835 15 _ (by norm_num) (by decide) (by decide)
    (by decide) (by decide) (by decide)

theorem stepE49 : multiply (decString 15 (eulerFrac * 2 ^ 49) 835) 2
    = decString 15 (eulerFrac * 2 ^ 50) 835 :=
  multiply_two_dec 15 835 15 _ (by norm_num) (by decide) (by decide)
    (by decide) (by decide) (by decide)

theorem stepE50 : multiply (decString 15 (eulerFrac * 2 ^ 50) 835) 2
    = decString 16 (eulerFrac * 2 ^ 51) 835 :=
  multiply_two_dec 15 835 16 _ (by norm_num) (by decide) (by decide)
    (by decide) (by decide) (by decide)

theorem stepE51 : multiply (decString 16 (eulerFrac * 2 ^ 51) 835) 2
    = decString 16 (eulerFrac * 2 ^ 52) 835 :=
  multiply_two_dec 16 835 16 _ (by norm_num) (by decide) (by decide)
    (by decide) (by decide) (by decide)

theorem stepE52 : multiply (decString 16 (eulerFrac * 2 ^ 52) 835) 2
    = decString 16 (eulerFrac * 2 ^ 53) 835 :=
  multiply_two_dec 16 835 16 _ (by norm_num) (by decide) (by decide)
    (by decide) (by decide) (by decide)

theorem stepE53 : multiply (decString 16 (eulerFrac * 2 ^ 53) 835) 2
    = decString 17 (eulerFrac * 2 ^ 54) 835 :=
  multiply_two_dec 16 835 17 _ (by norm_num) (by decide) (by decide)
    (by decide) (by decide) (by decide)

theorem stepE54 : multiply (decString 17 (eulerFrac * 2 ^ 54) 835) 2
    = decString 17 (eulerFrac * 2 ^ 55) 835 :=
  multiply_two_dec 17 835 17 _ (by norm_num) (by decide) (by decide)
    (by decide) (by decide) (by decide)

theorem stepE55 : multiply (decString 17 (eulerFrac * 2 ^ 55) 835) 2
    = decString 17 (eulerFrac * 2 ^ 56) 835 :=
  multiply_two_dec 17 835 17 _ (by norm_num) (by decide) (by decide)
    (by decide) (by decide) (by decide)

theorem stepE56 : multiply (decString 17 (eulerFrac * 2 ^ 56) 835) 2
    = decString 18 (eulerFrac * 2 ^ 57) 835 :=
  multiply_two_dec 17 835 18 _ (by norm_num) (by decide) (by decide)
    (by decide) (by decide) (by decide)

theorem stepE57 : multiply (decString 18 (eulerFrac * 2 ^ 57) 835) 2
    = decString 18 (eulerFrac * 2 ^ 58) 835 :=
  multiply_two_dec 18 835 18 _ (by norm_num) (by decide) (by decide)
    (by decide) (by decide) (by decide)

theorem stepE58 : multiply (decString 18 (eulerFrac * 2 ^ 58) 835) 2
    = decString 18 (eulerFrac * 2 ^ 59) 835 :=
  multiply_two_dec 18 835 18 _ (by norm_num) (by decide) (by decide)
    (by decide) (by decide) (by decide)

theorem stepE59 : multiply (decString 18 (eulerFrac * 2 ^ 59) 835) 2
    = decString 18 (eulerFrac * 2 ^ 60) 835 :=
  multiply_two_dec 18 835 18 _ (by norm_num) (by decide) (by decide)
    (by decide) (by decide) (by decide)

theorem stepE60 : multiply (decString 18 (eulerFrac * 2 ^ 60) 835) 2
    = decString 19 (eulerFrac * 2 ^ 61) 835 :=
  multiply_two_dec 18 835 19 _ (by norm_num) (by decide) (by decide)
    (by decide) (by decide) (by decide)

theorem stepE61 : multiply (decString 19 (eulerFrac * 2 ^ 61) 835) 2
    = decString 19 (eulerFrac * 2 ^ 62) 835 :=
  multiply_two_dec 19 835 19 _ (by norm_num) (by decide) (by decide)
    (by decide) (by decide) (by decide)

theorem stepE62 : multiply (decString 19 (eulerFrac * 2 ^ 62) 835) 2
    = decString 19 (eulerFrac * 2 ^ 63) 835 :=
  multiply_two_dec 19 835 19 _ (by norm_num) (by decide) (by decide)
    (by decide) (by decide) (by decide)

theorem stepE63 : multiply (decString 19 (eulerFrac * 2 ^ 63) 835) 2
    = decString 20 (eulerFrac * 2 ^ 64) 835 :=
  multiply_two_dec 19 835 20 _ (by norm_num) (by decide) (by decide)
    (by decide) (by decide) (by decide)

theorem stepP0 : multiply (decString 1 (goldenFrac * 2 ^ 0) 838) 2
    = decString 1 (goldenFrac * 2 ^ 1) 838 :=
  multiply_two_dec 1 838 1 _ (by norm_num) (by decide) (by decide)
    (by decide) (by decide) (by decide)

theorem stepP1 : multiply (decString 1 (goldenFrac * 2 ^ 1) 838) 2
    = decString 1 (goldenFrac * 2 ^ 2) 838 :=
  multiply_two_dec 1 838 1 _ (by norm_num) (by decide) (by decide)
    (by decide) (by decide) (by decide)

theorem stepP2 : multiply (decString 1 (goldenFrac * 2 ^ 2) 838) 2
    = decString 1 (goldenFrac * 2 ^ 3) 838 :=
  multiply_two_dec 1 838 1 _ (by norm_num) (by decide) (by decide)
    (by decide) (by decide) (by decide)

theorem stepP3 : multiply (decString 1 (goldenFrac * 2 ^ 3) 838) 2
    = decString 1 (goldenFrac * 2 ^ 4) 838 :=
  multiply_two_dec 1 838 1 _ (by norm_num) (by decide) (by decide)
    (by decide) (by decide) (by decide)

theorem stepP4 : multiply (decString 1 (goldenFrac * 2 ^ 4) 838) 2
    = decString 2 (goldenFrac * 2 ^ 5) 838 :=
  multiply_two_dec 1 838 2 _ (by norm_num) (by decide) (by decide)
    (by decide) (by decide) (by decide)

theorem stepP5 : multiply (decString 2 (goldenFrac * 2 ^ 5) 838) 2
    = decString 2 (goldenFrac * 2 ^ 6) 838 :=
  multiply_two_dec 2 838 2 _ (by norm_num) (by decide) (by decide)
    (by decide) (by decide) (by decide)

theorem stepP6 : multiply (decString 2 (goldenFrac * 2 ^ 6) 838) 2
    = decString 2 (goldenFrac * 2 ^ 7) 838 :=
  multiply_two_dec 2 838 2 _ (by norm_num) (by decide) (by decide)
    (by decide) (by decide) (by decide)

theorem stepP7 : multiply (decString 2 (goldenFrac * 2 ^ 7) 838) 2
    = decString 3 (goldenFrac * 2 ^ 8) 838 :=
  multiply_two_dec 2 838 3 _ (by norm_num) (by decide) (by decide)
    (by decide) (by decide) (by decide)

theorem stepP8 : multiply (decString 3 (goldenFrac * 2 ^ 8) 838) 2
    = decString 3 (goldenFrac * 2 ^ 9) 838 :=
  multiply_two_dec 3 838 3 _ (by norm_num) (by decide) (by decide)
    (by decide) (by decide) (by decide)

theorem stepP9 : multiply (decString 3 (goldenFrac * 2 ^ 9) 838) 2
    = decString 3 (goldenFrac * 2 ^ 10) 838 :=
  multiply_two_dec 3 838 3 _ (by norm_num) (by decide) (by decide)
    (by decide) (by decide) (by decide)

theorem stepP10 : multiply (decString 3 (goldenFrac * 2 ^ 10) 838) 2
    = decString 4 (goldenFrac * 2 ^ 11) 838 :=
  multiply_two_dec 3 838 4 _ (by norm_num) (by decide) (by decide)
    (by decide) (by decide) (by decide)

theorem stepP11 : multiply (decString 4 (goldenFrac * 2 ^ 11) 838) 2
    = decString 4 (goldenFrac * 2 ^ 12) 838 :=
  multiply_two_dec 4 838 4 _ (by norm_num) (by decide) (by decide)
    (by decide) (by decide) (by decide)

theorem stepP12 : multiply (decString 4 (goldenFrac * 2 ^ 12) 838) 2
    = decString 4 (goldenFrac * 2 ^ 13) 838 :=
  multiply_two_dec 4 838 4 _ (by norm_num) (by decide) (by decide)
    (by decide) (by decide) (by decide)

theorem stepP13 : multiply (decString 4 (goldenFrac * 2 ^ 13) 838) 2
    = decString 5 (goldenFrac * 2 ^ 14) 838 :=
  multiply_two_dec 4 838 5 _ (by norm_num) (by decide) (by decide)
    (by decide) (by decide) (by decide)

theorem stepP14 : multiply (decString 5 (goldenFrac * 2 ^ 14) 838) 2
    = decString 5 (goldenFrac * 2 ^ 15) 838 :=
  multiply_two_dec 5 838 5 _ (by norm_num) (by decide) (by decide)
    (by decide) (by decide) (by decide)

theorem stepP15 : multiply (decString 5 (goldenFrac * 2 ^ 15) 838) 2
    = decString 5 (goldenFrac * 2 ^ 16) 838 :=
  multiply_two_dec 5 838 5 _ (by norm_num) (by decide) (by decide)
    (by decide) (by decide) (by decide)

theorem stepP16 : multiply (decString 5 (goldenFrac * 2 ^ 16) 838) 2
    = decString 5 (goldenFrac * 2 ^ 17) 838 :=
  multiply_two_dec 5 838 5 _ (by norm_num) (by decide) (by decide)
    (by decide) (by decide) (by decide)

theorem stepP17 : multiply (decString 5 (goldenFrac * 2 ^ 17) 838) 2
    = decString 6 (goldenFrac * 2 ^ 18) 838 :=
  multiply_two_dec 5 838 6 _ (by norm_num) (by decide) (by decide)
    (by decide) (by decide) (by decide)

theorem stepP18 : multiply (decString 6 (goldenFrac * 2 ^ 18) 838) 2
    = decString 6 (goldenFrac * 2 ^ 19) 838 :=
  multiply_two_dec 6 838 6 _ (by norm_num) (by decide) (by decide)
    (by decide) (by decide) (by decide)

theorem stepP19 : multiply (decString 6 (goldenFrac * 2 ^ 19) 838) 2
    = decString 6 (goldenFrac * 2 ^ 20) 838 :=
  multiply_two_dec 6 838 6 _ (by norm_num) (by decide) (by decide)
    (by decide) (by decide) (by decide)

theorem stepP20 : multiply (decString 6 (goldenFrac * 2 ^ 20) 838) 2
    = decString 7 (goldenFrac * 2 ^ 21) 838 :=
  multiply_two_dec 6 838 7 _ (by norm_num) (by decide) (by decide)
    (by decide) (by decide) (by decide)

theorem stepP21 : multiply (decString 7 (goldenFrac * 2 ^ 21) 838) 2
    = decString 7 (goldenFrac * 2 ^ 22) 838 :=
  multiply_two_dec 7 838 7 _ (by norm_num) (by decide) (by decide)
    (by decide) (by decide) (by decide)

theorem stepP22 : multiply (decString 7 (goldenFrac * 2 ^ 22) 838) 2
    = decString 7 (goldenFrac * 2 ^ 23) 838 :=
  multiply_two_dec 7 838 7 _ (by norm_num) (by decide) (by decide)
    (by decide) (by decide) (by decide)

theorem stepP23 : multiply (decString 7 (goldenFrac * 2 ^ 23) 838) 2
    = decString 8 (goldenFrac * 2 ^ 24) 838 :=
  multiply_two_dec 7 838 8 _ (by norm_num) (by decide) (by decide)
    (by decide) (by decide) (by decide)

theorem stepP24 : multiply (decString 8 (goldenFrac * 2 ^ 24) 838) 2
    = decString 8 (goldenFrac * 2 ^ 25) 838 :=
  multiply_two_dec 8 838 8 _ (by norm_num) (by decide) (by decide)
    (by decide) (by decide) (by decide)

theorem stepP25 : multiply (decString 8 (goldenFrac * 2 ^ 25) 838) 2
    = decString 8 (goldenFrac * 2 ^ 26) 838 :=
  multiply_two_dec 8 838 8 _ (by norm_num) (by decide) (by decide)
    (by decide) (by decide) (by decide)

theorem stepP26 : multiply (decString 8 (goldenFrac * 2 ^ 26) 838) 2
    = decString 8 (goldenFrac * 2 ^ 27) 838 :=
  multiply_two_dec 8 838 8 _ (by norm_num) (by decide) (by decide)
    (by decide) (by decide) (by decide)

theorem stepP27 : multiply (decString 8 (goldenFrac * 2 ^ 27) 838) 2
    = decString 9 (goldenFrac * 2 ^ 28) 838 :=
  multiply_two_dec 8 838 9 _ (by norm_num) (by decide) (by decide)
    (by decide) (by decide) (by decide)

theorem stepP28 : multiply (decString 9 (goldenFrac * 2 ^ 28) 838) 2
    = decString 9 (goldenFrac * 2 ^ 29) 838 :=
  multiply_two_dec 9 838 9 _ (by norm_num) (by decide) (by decide)
    (by decide) (by decide) (by decide)

theorem stepP29 : multiply (decString 9 (goldenFrac * 2 ^ 29) 838) 2
    = decString 9 (goldenFrac * 2 ^ 30) 838 :=
  multiply_two_dec 9 838 9 _ (by norm_num) (by decide) (by decide)
    (by decide) (by decide) (by decide)

theorem stepP30 : multiply (decString 9 (goldenFrac * 2 ^ 30) 838) 2
    = decString 10 (goldenFrac * 2 ^ 31) 838 :=
  multiply_two_dec 9 838 10 _ (by norm_num) (by decide) (by decide)
    (by decide) (by decide) (by decide)

theorem stepP31 : multiply (decString 10 (goldenFrac * 2 ^ 31) 838) 2
    = decString 10 (goldenFrac * 2 ^ 32) 838 :=
  multiply_two_dec 10 838 10 _ (by norm_num) (by decide) (by decide)
    (by decide) (by decide) (by decide)

theorem stepP32 : multiply (decString 10 (goldenFrac * 2 ^ 32) 838) 2
    = decString 10 (goldenFrac * 2 ^ 33) 838 :=
  multiply_two_dec 10 838 10 _ (by norm_num) (by decide) (by decide)
    (by decide) (by decide) (by decide)

theorem stepP33 : multiply (decString 10 (goldenFrac * 2 ^ 33) 838) 2
    = decString 11 (goldenFrac * 2 ^ 34) 838 :=
  multiply_two_dec 10 838 11 _ (by norm_num) (by decide) (by decide)
    (by decide) (by decide) (by decide)

theorem stepP34 : multiply (decString 11 (goldenFrac * 2 ^ 34) 838) 2
    = decString 11 (goldenFrac * 2 ^ 35) 838 :=
  multiply_two_dec 11 838 11 _ (by norm_num) (by decide) (by decide)
    (by decide) (by decide) (by decide)

theorem stepP35 : multiply (decString 11 (goldenFrac * 2 ^ 35) 838) 2
    = decString 11 (goldenFrac * 2 ^ 36) 838 :=
  multiply_two_dec 11 838 11 _ (by norm_num) (by decide) (by decide)
    (by decide) (by decide) (by decide)

theorem stepP36 : multiply (decString 11 (goldenFrac * 2 ^ 36) 838) 2
    = decString 11 (goldenFrac * 2 ^ 37) 838 :=
  multiply_two_dec 11 838 11 _ (by norm_num) (by decide) (by decide)
    (by decide) (by decide) (by decide)

theorem stepP37 : multiply (decString 11 (goldenFrac * 2 ^ 37) 838) 2
    = decString 12 (goldenFrac * 2 ^ 38) 838 :=
  multiply_two_dec 11 838 12 _ (by norm_num) (by decide) (by decide)
    (by decide) (by decide) (by decide)

theorem stepP38 : multiply (decString 12 (goldenFrac * 2 ^ 38) 838) 2
    = decString 12 (goldenFrac * 2 ^ 39) 838 :=
  multiply_two_dec 12 838 12 _ (by norm_num) (by decide) (by decide)
    (by decide) (by decide) (by decide)

theorem stepP39 : multiply (decString 12 (goldenFrac * 2 ^ 39) 838) 2
    = decString 12 (goldenFrac * 2 ^ 40) 838 :=
  multiply_two_dec 12 838 12 _ (by norm_num) (by decide) (by decide)
    (by decide) (by decide) (by decide)

theorem stepP40 : multiply (decString 12 (goldenFrac * 2 ^ 40) 838) 2
    = decString 13 (goldenFrac * 2 ^ 41) 838 :=
  multiply_two_dec 12 838 13 _ (by norm_num) (by decide) (by decide)
    (by decide) (by decide) (by decide)

theorem stepP41 : multiply (decString 13 (goldenFrac * 2 ^ 41) 838) 2
    = decString 13 (goldenFrac * 2 ^ 42) 838 :=
  multiply_two_dec 13 838 13 _ (by norm_num) (by decide) (by decide)
    (by decide) (by decide) (by decide)

theorem stepP42 : multiply (decString 13 (goldenFrac * 2 ^ 42) 838) 2
    = decString 13 (goldenFrac * 2 ^ 43) 838 :=
  multiply_two_dec 13 838 13 _ (by norm_num) (by decide) (by decide)
    (by decide) (by decide) (by decide)

theorem stepP43 : multiply (decString 13 (goldenFrac * 2 ^ 43) 838) 2
    = decString 14 (goldenFrac * 2 ^ 44) 838 :=
  multiply_two_dec 13 838 14 _ (by norm_num) (by decide) (by decide)
    (by decide) (by decide) (by decide)

theorem stepP44 : multiply (decString 14 (goldenFrac * 2 ^ 44) 838) 2
    = decString 14 (goldenFrac * 2 ^ 45) 838 :=
  multiply_two_dec 14 838 14 _ (by norm_num) (by decide) (by decide)
    (by decide) (by decide) (by decide)

theorem stepP45 : multiply (decString 14 (goldenFrac * 2 ^ 45) 838) 2
    = decString 14 (goldenFrac * 2 ^ 46) 838 :=
  multiply_two_dec 14 838 14 _ (by norm_num) (by decide) (by decide)
    (by decide) (by decide) (by decide)

theorem stepP46 : multiply (decString 14 (goldenFrac * 2 ^ 46) 838) 2
    = decString 14 (goldenFrac * 2 ^ 47) 838 :=
  multiply_two_dec 14 838 14 _ (by norm_num) (by decide) (by decide)
    (by decide) (by decide) (by decide)

theorem stepP47 : multiply (decString 14 (goldenFrac * 2 ^ 47) 838) 2
    = decString 15 (goldenFrac * 2 ^ 48) 838 :=
  multiply_two_dec 14 838 15 _ (by norm_num) (by decide) (by decide)
    (by decide) (by decide) (by decide)

theorem stepP48 : multiply (decString 15 (goldenFrac * 2 ^ 48) 838) 2
    = decString 15 (goldenFrac * 2 ^ 49) 838 :=
  multiply_two_dec 15 838 15 _ (by norm_num) (by decide) (by decide)
    (by decide) (by decide) (by decide)

theorem stepP49 : multiply (decString 15 (goldenFrac * 2 ^ 49) 838) 2
    = decString 15 (goldenFrac * 2 ^ 50) 838 :=
  multiply_two_dec 15 838 15 _ (by norm_num) (by decide) (by decide)
    (by decide) (by decide) (by decide)

theorem stepP50 : multiply (decString 15 (goldenFrac * 2 ^ 50) 838) 2
    = decString 16 (goldenFrac * 2 ^ 51) 838 :=
  multiply_two_dec 15 838 16 _ (by norm_num) (by decide) (by decide)
    (by decide) (by decide) (by decide)

theorem stepP51 : multiply (decString 16 (goldenFrac * 2 ^ 51) 838) 2
    = decString 16 (goldenFrac * 2 ^ 52) 838 :=
  multiply_two_dec 16 838 16 _ (by norm_num) (by decide) (by decide)
    (by decide) (by decide) (by decide)

theorem stepP52 : multiply (decString 16 (goldenFrac * 2 ^ 52) 838) 2
    = decString 16 (goldenFrac * 2 ^ 53) 838 :=
  multiply_two_dec 16 838 16 _ (by norm_num) (by decide) (by decide)
    (by decide) (by decide) (by decide)

theorem stepP53 : multiply (decString 16 (goldenFrac * 2 ^ 53) 838) 2
    = decString 17 (goldenFrac * 2 ^ 54) 838 :=
  multiply_two_dec 16 838 17 _ (by norm_num) (by decide) (by decide)
    (by decide) (by decide) (by decide)

theorem stepP54 : multiply (decString 17 (goldenFrac * 2 ^ 54) 838) 2
    = decString 17 (goldenFrac * 2 ^ 55) 838 :=
  multiply_two_dec 17 838 17 _ (by norm_num) (by decide) (by decide)
    (by decide) (by decide) (by decide)

theorem stepP55 : multiply (decString 17 (goldenFrac * 2 ^ 55) 838) 2
    = decString 17 (goldenFrac * 2 ^ 56) 838 :=
  multiply_two_dec 17 838 17 _ (by norm_num) (by decide) (by decide)
    (by decide) (by decide) (by decide)

theorem stepP56 : multiply (decString 17 (goldenFrac * 2 ^ 56) 838) 2
    = decString 17 (goldenFrac * 2 ^ 57) 838 :=
  multiply_two_dec 17 838 17 _ (by norm_num) (by decide) (by decide)
    (by decide) (by decide) (by decide)

theorem stepP57 : multiply (decString 17 (goldenFrac * 2 ^ 57) 838) 2
    = decString 18 (goldenFrac * 2 ^ 58) 838 :=
  multiply_two_dec 17 838 18 _ (by norm_num) (by decide) (by decide)
    (by decide) (by decide) (by decide)

theorem stepP58 : multiply (decString 18 (goldenFrac * 2 ^ 58) 838) 2
    = decString 18 (goldenFrac * 2 ^ 59) 838 :=
  multiply_two_dec 18 838 18 _ (by norm_num) (by decide) (by decide)
    (by decide) (by decide) (by decide)

theorem stepP59 : multiply (decString 18 (goldenFrac * 2 ^ 59) 838) 2
    = decString 18 (goldenFrac * 2 ^ 60) 838 :=
  multiply_two_dec 18 838 18 _ (by norm_num) (by decide) (by decide)
    (by decide) (by decide) (by decide)

theorem stepP60 : multiply (decString 18 (goldenFrac * 2 ^ 60) 838) 2
    = decString 19 (goldenFrac * 2 ^ 61) 838 :=
  multiply_two_dec 18 838 19 _ (by norm_num) (by decide) (by decide)
    (by decide) (by decide) (by decide)

theorem stepP61 : multiply (decString 19 (goldenFrac * 2 ^ 61) 838) 2
    = decString 19 (goldenFrac * 2 ^ 62) 838 :=
  multiply_two_dec 19 838 19 _ (by norm_num) (by decide) (by decide)
    (by decide) (by decide) (by decide)

theorem stepP62 : multiply (decString 19 (goldenFrac * 2 ^ 62) 838) 2
    = decString 19 (goldenFrac * 2 ^ 63) 838 :=
  multiply_two_dec 19 838 19 _ (by norm_num) (by decide) (by decide)
    (by decide) (by decide) (by decide)

theorem stepP63 : multiply (decString 19 (goldenFrac * 2 ^ 63) 838) 2
    = decString 20 (goldenFrac * 2 ^ 64) 838 :=
  multiply_two_dec 19 838 20 _ (by norm_num) (by decide) (by decide)
    (by decide) (by decide) (by decide)

theorem chainEa : iterDouble 32 (decString 1 (eulerFrac * 2 ^ 0) 835)
    = decString 10 (eulerFrac * 2 ^ 32) 835 := by
  calc iterDouble 32 (decString 1 (eulerFrac * 2 ^ 0) 835)
      = iterDouble 31 (decString 1 (eulerFrac * 2 ^ 1) 835) := iterDouble_shift 31 _ _ stepE0
    _ = iterDouble 30 (decString 1 (eulerFrac * 2 ^ 2) 835) := iterDouble_shift 30 _ _ stepE1
    _ = iterDouble 29 (decString 1 (eulerFrac * 2 ^ 3) 835) := iterDouble_shift 29 _ _ stepE2
    _ = iterDouble 28 (decString 2 (eulerFrac * 2 ^ 4) 835) := iterDouble_shift 28 _ _ stepE3
    _ = iterDouble 27 (decString 2 (eulerFrac * 2 ^ 5) 835) := iterDouble_shift 27 _ _ stepE4
    _ = iterDouble 26 (decString 2 (eulerFrac * 2 ^ 6) 835) := iterDouble_shift 26 _ _ stepE5
    _ = iterDouble 25 (decString 2 (eulerFrac * 2 ^ 7) 835) := iterDouble_shift 25 _ _ stepE6
    _ = iterDouble 24 (decString 3 (eulerFrac * 2 ^ 8) 835) := iterDouble_shift 24 _ _ stepE7
    _ = iterDouble 23 (decString 3 (eulerFrac * 2 ^ 9) 835) := iterDouble_shift 23 _ _ stepE8
    _ = iterDouble 22 (decString 3 (eulerFrac * 2 ^ 10) 835) := iterDouble_shift 22 _ _ stepE9
    _ = iterDouble 21 (decString 4 (eulerFrac * 2 ^ 11) 835) := iterDouble_shift 21 _ _ stepE10
    _ = iterDouble 20 (decString 4 (eulerFrac * 2 ^ 12) 835) := iterDouble_shift 20 _ _ stepE11
    _ = iterDouble 19 (decString 4 (eulerFrac * 2 ^ 13) 835) := iterDouble_shift 19 _ _ stepE12
    _ = iterDouble 18 (decString 5 (eulerFrac * 2 ^ 14) 835) := iterDouble_shift 18 _ _ stepE13
    _ = iterDouble 17 (decString 5 (eulerFrac * 2 ^ 15) 835) := iterDouble_shift 17 _ _ stepE14
    _ = iterDouble 16 (decString 5 (eulerFrac * 2 ^ 16) 835) := iterDouble_shift 16 _ _ stepE15
    _ = iterDouble 15 (decString 5 (eulerFrac * 2 ^ 17) 835) := iterDouble_shift 15 _ _ stepE16
    _ = iterDouble 14 (decString 6 (eulerFrac * 2 ^ 18) 835) := iterDouble_shift 14 _ _ stepE17
    _ = iterDouble 13 (decString 6 (eulerFrac * 2 ^ 19) 835) := iterDouble_shift 13 _ _ stepE18
    _ = iterDouble 12 (decString 6 (eulerFrac * 2 ^ 20) 835) := iterDouble_shift 12 _ _ stepE19
    _ = iterDouble 11 (decString 7 (eulerFrac * 2 ^ 21) 835) := iterDouble_shift 11 _ _ stepE20
    _ = iterDouble 10 (decString 7 (eulerFrac * 2 ^ 22) 835) := iterDouble_shift 10 _ _ stepE21
    _ = iterDouble 9 (decString 7 (eulerFrac * 2 ^ 23) 835) := iterDouble_shift 9 _ _ stepE22
    _ = iterDouble 8 (decString 8 (eulerFrac * 2 ^ 24) 835) := iterDouble_shift 8 _ _ stepE23
    _ = iterDouble 7 (decString 8 (eulerFrac * 2 ^ 25) 835) := iterDouble_shift 7 _ _ stepE24
    _ = iterDouble 6 (decString 8 (eulerFrac * 2 ^ 26) 835) := iterDouble_shift 6 _ _ stepE25
    _ = iterDouble 5 (decString 8 (eulerFrac * 2 ^ 27) 835) := iterDouble_shift 5 _ _ stepE26
    _ = iterDouble 4 (decString 9 (eulerFrac * 2 ^ 28) 835) := iterDouble_shift 4 _ _ stepE27
    _ = iterDouble 3 (decString 9 (eulerFrac * 2 ^ 29) 835) := iterDouble_shift 3 _ _ stepE28
    _ = iterDouble 2 (decString 9 (eulerFrac * 2 ^ 30) 835) := iterDouble_shift 2 _ _ stepE29
    _ = iterDouble 1 (decString 10 (eulerFrac * 2 ^ 31) 835) := iterDouble_shift 1 _ _ stepE30
    _ = iterDouble 0 (decString 10 (eulerFrac * 2 ^ 32) 835) := iterDouble_shift 0 _ _ stepE31
    _ = decString 10 (eulerFrac * 2 ^ 32) 835 := rfl

theorem chainEb : iterDouble 32 (decString 10 (eulerFrac * 2 ^ 32) 835)
    = decString 20 (eulerFrac * 2 ^ 64) 835 := by
  calc iterDouble 32 (decString 10 (eulerFrac * 2 ^ 32) 835)
      = iterDouble 31 (decString 10 (eulerFrac * 2 ^ 33) 835) := iterDouble_shift 31 _ _ stepE32
    _ = iterDouble 30 (decString 11 (eulerFrac * 2 ^ 34) 835) := iterDouble_shift 30 _ _ stepE33
    _ = iterDouble 29 (decString 11 (eulerFrac * 2 ^ 35) 835) := iterDouble_shift 29 _ _ stepE34
    _ = iterDouble 28 (decString 11 (eulerFrac * 2 ^ 36) 835) := iterDouble_shift 28 _ _ stepE35
    _ = iterDouble 27 (decString 11 (eulerFrac * 2 ^ 37) 835) := iterDouble_shift 27 _ _ stepE36
    _ = iterDouble 26 (decString 12 (eulerFrac * 2 ^ 38) 835) := iterDouble_shift 26 _ _ stepE37
    _ = iterDouble 25 (decString 12 (eulerFrac * 2 ^ 39) 835) := iterDouble_shift 25 _ _ stepE38
    _ = iterDouble 24 (decString 12 (eulerFrac * 2 ^ 40) 835) := iterDouble_shift 24 _ _ stepE39
    _ = iterDouble 23 (decString 13 (eulerFrac * 2 ^ 41) 835) := iterDouble_shift 23 _ _ stepE40
    _ = iterDouble 22 (decString 13 (eulerFrac * 2 ^ 42) 835) := iterDouble_shift 22 _ _ stepE41
    _ = iterDouble 21 (decString 13 (eulerFrac * 2 ^ 43) 835) := iterDouble_shift 21 _ _ stepE42
    _ = iterDouble 20 (decString 14 (eulerFrac * 2 ^ 44) 835) := iterDouble_shift 20 _ _ stepE43
    _ = iterDouble 19 (decString 14 (eulerFrac * 2 ^ 45) 835) := iterDouble_shift 19 _ _ stepE44
    _ = iterDouble 18 (decString 14 (eulerFrac * 2 ^ 46) 835) := iterDouble_shift 18 _ _ stepE45
    _ = iterDouble 17 (decString 15 (eulerFrac * 2 ^ 47) 835) := iterDouble_shift 17 _ _ stepE46
    _ = iterDouble 16 (decString 15 (eulerFrac * 2 ^ 48) 835) := iterDouble_shift 16 _ _ stepE47
    _ = iterDouble 15 (decString 15 (eulerFrac * 2 ^ 49) 835) := iterDouble_shift 15 _ _ stepE48
    _ = iterDouble 14 (decString 15 (eulerFrac * 2 ^ 50) 835) := iterDouble_shift 14 _ _ stepE49
    _ = iterDouble 13 (decString 16 (eulerFrac * 2 ^ 51) 835) := iterDouble_shift 13 _ _ stepE50
    _ = iterDouble 12 (decString 16 (eulerFrac * 2 ^ 52) 835) := iterDouble_shift 12 _ _ stepE51
    _ = iterDouble 11 (decString 16 (eulerFrac * 2 ^ 53) 835) := iterDouble_shift 11 _ _ stepE52
    _ = iterDouble 10 (decString 17 (eulerFrac * 2 ^ 54) 835) := iterDouble_shift 10 _ _ stepE53
    _ = iterDouble 9 (decString 17 (eulerFrac * 2 ^ 55) 835) := iterDouble_shift 9 _ _ stepE54
    _ = iterDouble 8 (decString 17 (eulerFrac * 2 ^ 56) 835) := iterDouble_shift 8 _ _ stepE55
    _ = iterDouble 7 (decString 18 (eulerFrac * 2 ^ 57) 835) := iterDouble_shift 7 _ _ stepE56
    _ = iterDouble 6 (decString 18 (eulerFrac * 2 ^ 58) 835) := iterDouble_shift 6 _ _ stepE57
    _ = iterDouble 5 (decString 18 (eulerFrac * 2 ^ 59) 835) := iterDouble_shift 5 _ _ stepE58
    _ = iterDouble 4 (decString 18 (eulerFrac * 2 ^ 60) 835) := iterDouble_shift 4 _ _ stepE59
    _ = iterDouble 3 (decString 19 (eulerFrac * 2 ^ 61) 835) := iterDouble_shift 3 _ _ stepE60
    _ = iterDouble 2 (decString 19 (eulerFrac * 2 ^ 62) 835) := iterDouble_shift 2 _ _ stepE61
    _ = iterDouble 1 (decString 19 (eulerFrac * 2 ^ 63) 835) := iterDouble_shift 1 _ _ stepE62
    _ = iterDouble 0 (decString 20 (eulerFrac * 2 ^ 64) 835) := iterDouble_shift 0 _ _ stepE63
    _ = decString 20 (eulerFrac * 2 ^ 64) 835 := rfl

theorem chainPa : iterDouble 32 (decString 1 (goldenFrac * 2 ^ 0) 838)
    = decString 10 (goldenFrac * 2 ^ 32) 838 := by
  calc iterDouble 32 (decString 1 (goldenFrac * 2 ^ 0) 838)
      = iterDouble 31 (decString 1 (goldenFrac * 2 ^ 1) 838) := iterDouble_shift 31 _ _ stepP0
    _ = iterDouble 30 (decString 1 (goldenFrac * 2 ^ 2) 838) := iterDouble_shift 30 _ _ stepP1
    _ = iterDouble 29 (decString 1 (goldenFrac * 2 ^ 3) 838) := iterDouble_shift 29 _ _ stepP2
    _ = iterDouble 28 (decString 1 (goldenFrac * 2 ^ 4) 838) := iterDouble_shift 28 _ _ stepP3
    _ = iterDouble 27 (decString 2 (goldenFrac * 2 ^ 5) 838) := iterDouble_shift 27 _ _ stepP4
    _ = iterDouble 26 (decString 2 (goldenFrac * 2 ^ 6) 838) := iterDouble_shift 26 _ _ stepP5
    _ = iterDouble 25 (decString 2 (goldenFrac * 2 ^ 7) 838) := iterDouble_shift 25 _ _ stepP6
    _ = iterDouble 24 (decString 3 (goldenFrac * 2 ^ 8) 838) := iterDouble_shift 24 _ _ stepP7
    _ = iterDouble 23 (decString 3 (goldenFrac * 2 ^ 9) 838) := iterDouble_shift 23 _ _ stepP8
    _ = iterDouble 22 (decString 3 (goldenFrac * 2 ^ 10) 838) := iterDouble_shift 22 _ _ stepP9
    _ = iterDouble 21 (decString 4 (goldenFrac * 2 ^ 11) 838) := iterDouble_shift 21 _ _ stepP10
    _ = iterDouble 20 (decString 4 (goldenFrac * 2 ^ 12) 838) := iterDouble_shift 20 _ _ stepP11
    _ = iterDouble 19 (decString 4 (goldenFrac * 2 ^ 13) 838) := iterDouble_shift 19 _ _ stepP12
    _ = iterDouble 18 (decString 5 (goldenFrac * 2 ^ 14) 838) := iterDouble_shift 18 _ _ stepP13
    _ = iterDouble 17 (decString 5 (goldenFrac * 2 ^ 15) 838) := iterDouble_shift 17 _ _ stepP14
    _ = iterDouble 16 (decString 5 (goldenFrac * 2 ^ 16) 838) := iterDouble_shift 16 _ _ stepP15
    _ = iterDouble 15 (decString 5 (goldenFrac * 2 ^ 17) 838) := iterDouble_shift 15 _ _ stepP16
    _ = iterDouble 14 (decString 6 (goldenFrac * 2 ^ 18) 838) := iterDouble_shift 14 _ _ stepP17
    _ = iterDouble 13 (decString 6 (goldenFrac * 2 ^ 19) 838) := iterDouble_shift 13 _ _ stepP18
    _ = iterDouble 12 (decString 6 (goldenFrac * 2 ^ 20) 838) := iterDouble_shift 12 _ _ stepP19
    _ = iterDouble 11 (decString 7 (goldenFrac * 2 ^ 21) 838) := iterDouble_shift 11 _ _ stepP20
    _ = iterDouble 10 (decString 7 (goldenFrac * 2 ^ 22) 838) := iterDouble_shift 10 _ _ stepP21
    _ = iterDouble 9 (decString 7 (goldenFrac * 2 ^ 23) 838) := iterDouble_shift 9 _ _ stepP22
    _ = iterDouble 8 (decString 8 (goldenFrac * 2 ^ 24) 838) := iterDouble_shift 8 _ _ stepP23
    _ = iterDouble 7 (decString 8 (goldenFrac * 2 ^ 25) 838) := iterDouble_shift 7 _ _ stepP24
    _ = iterDouble 6 (decString 8 (goldenFrac * 2 ^ 26) 838) := iterDouble_shift 6 _ _ stepP25
    _ = iterDouble 5 (decString 8 (goldenFrac * 2 ^ 27) 838) := iterDouble_shift 5 _ _ stepP26
    _ = iterDouble 4 (decString 9 (goldenFrac * 2 ^ 28) 838) := iterDouble_shift 4 _ _ stepP27
    _ = iterDouble 3 (decString 9 (goldenFrac * 2 ^ 29) 838) := iterDouble_shift 3 _ _ stepP28
    _ = iterDouble 2 (decString 9 (goldenFrac * 2 ^ 30) 838) := iterDouble_shift 2 _ _ stepP29
    _ = iterDouble 1 (decString 10 (goldenFrac * 2 ^ 31) 838) := iterDouble_shift 1 _ _ stepP30
    _ = iterDouble 0 (decString 10 (goldenFrac * 2 ^ 32) 838) := iterDouble_shift 0 _ _ stepP31
    _ = decString 10 (goldenFrac * 2 ^ 32) 838 := rfl

theorem chainPb : iterDouble 32 (decString 10 (goldenFrac * 2 ^ 32) 838)
    = decString 20 (goldenFrac * 2 ^ 64) 838 := by
  calc iterDouble 32 (decString 10 (goldenFrac * 2 ^ 32) 838)
      = iterDouble 31 (decString 10 (goldenFrac * 2 ^ 33) 838) := iterDouble_shift 31 _ _ stepP32
    _ = iterDouble 30 (decString 11 (goldenFrac * 2 ^ 34) 838) := iterDouble_shift 30 _ _ stepP33
    _ = iterDouble 29 (decString 11 (goldenFrac * 2 ^ 35) 838) := iterDouble_shift 29 _ _ stepP34
    _ = iterDouble 28 (decString 11 (goldenFrac * 2 ^ 36) 838) := iterDouble_shift 28 _ _ stepP35
    _ = iterDouble 27 (decString 11 (goldenFrac * 2 ^ 37) 838) := iterDouble_shift 27 _ _ stepP36
    _ = iterDouble 26 (decString 12 (goldenFrac * 2 ^ 38) 838) := iterDouble_shift 26 _ _ stepP37
    _ = iterDouble 25 (decString 12 (goldenFrac * 2 ^ 39) 838) := iterDouble_shift 25 _ _ stepP38
    _ = iterDouble 24 (decString 12 (goldenFrac * 2 ^ 40) 838) := iterDouble_shift 24 _ _ stepP39
    _ = iterDouble 23 (decString 13 (goldenFrac * 2 ^ 41) 838) := iterDouble_shift 23 _ _ stepP40
    _ = iterDouble 22 (decString 13 (goldenFrac * 2 ^ 42) 838) := iterDouble_shift 22 _ _ stepP41
    _ = iterDouble 21 (decString 13 (goldenFrac * 2 ^ 43) 838) := iterDouble_shift 21 _ _ stepP42
    _ = iterDouble 20 (decString 14 (goldenFrac * 2 ^ 44) 838) := iterDouble_shift 20 _ _ stepP43
    _ = iterDouble 19 (decString 14 (goldenFrac * 2 ^ 45) 838) := iterDouble_shift 19 _ _ stepP44
    _ = iterDouble 18 (decString 14 (goldenFrac * 2 ^ 46) 838) := iterDouble_shift 18 _ _ stepP45
    _ = iterDouble 17 (decString 14 (goldenFrac * 2 ^ 47) 838) := iterDouble_shift 17 _ _ stepP46
    _ = iterDouble 16 (decString 15 (goldenFrac * 2 ^ 48) 838) := iterDouble_shift 16 _ _ stepP47
    _ = iterDouble 15 (decString 15 (goldenFrac * 2 ^ 49) 838) := iterDouble_shift 15 _ _ stepP48
    _ = iterDouble 14 (decString 15 (goldenFrac * 2 ^ 50) 838) := iterDouble_shift 14 _ _ stepP49
    _ = iterDouble 13 (decString 16 (goldenFrac * 2 ^ 51) 838) := iterDouble_shift 13 _ _ stepP50
    _ = iterDouble 12 (decString 16 (goldenFrac * 2 ^ 52) 838) := iterDouble_shift 12 _ _ stepP51
    _ = iterDouble 11 (decString 16 (goldenFrac * 2 ^ 53) 838) := iterDouble_shift 11 _ _ stepP52
    _ = iterDouble 10 (decString 17 (goldenFrac * 2 ^ 54) 838) := iterDouble_shift 10 _ _ stepP53
    _ = iterDouble 9 (decString 17 (goldenFrac * 2 ^ 55) 838) := iterDouble_shift 9 _ _ stepP54
    _ = iterDouble 8 (decString 17 (goldenFrac * 2 ^ 56) 838) := iterDouble_shift 8 _ _ stepP55
    _ = iterDouble 7 (decString 17 (goldenFrac * 2 ^ 57) 838) := iterDouble_shift 7 _ _ stepP56
    _ = iterDouble 6 (decString 18 (goldenFrac * 2 ^ 58) 838) := iterDouble_shift 6 _ _ stepP57
    _ = iterDouble 5 (decString 18 (goldenFrac * 2 ^ 59) 838) := iterDouble_shift 5 _ _ stepP58
    _ = iterDouble 4 (decString 18 (goldenFrac * 2 ^ 60) 838) := iterDouble_shift 4 _ _ stepP59
    _ = iterDouble 3 (decString 19 (goldenFrac * 2 ^ 61) 838) := iterDouble_shift 3 _ _ stepP60
    _ = iterDouble 2 (decString 19 (goldenFrac * 2 ^ 62) 838) := iterDouble_shift 2 _ _ stepP61
    _ = iterDouble 1 (decString 19 (goldenFrac * 2 ^ 63) 838) := iterDouble_shift 1 _ _ stepP62
    _ = iterDouble 0 (decString 20 (goldenFrac * 2 ^ 64) 838) := iterDouble_shift 0 _ _ stepP63
    _ = decString 20 (goldenFrac * 2 ^ 64) 838 := rfl

theorem iterE32 : iterDouble 32 (ascii eulerMinus2)
    = decString 10 (eulerFrac * 2 ^ 32) 835 := by
  rw [bridgeE]
  exact chainEa

theorem iterE64 : iterDouble 64 (ascii eulerMinus2)
    = decString 20 (eulerFrac * 2 ^ 64) 835 := by
  rw [bridgeE]
  conv_lhs => rw [show (64:Nat) = 32 + 32 from rfl, iterDouble_add]
  rw [chainEa]
  exact chainEb

theorem iterP32 : iterDouble 32 (ascii goldenRatioMinus1)
    = decString 10 (goldenFrac * 2 ^ 32) 838 := by
  rw [bridgeP]
  exact chainPa

theorem iterP64 : iterDouble 64 (ascii goldenRatioMinus1)
    = decString 20 (goldenFrac * 2 ^ 64) 838 := by
  rw [bridgeP]
  conv_lhs => rw [show (64:Nat) = 32 + 32 from rfl, iterDouble_add]
  rw [chainPa]
  exact chainPb

theorem deriveE32 : deriveConstant eulerMinus2 32 = some (ascii "B7E15163") := by
  unfold deriveConstant
  rw [iterE32, truncate_decString]
  rfl

theorem deriveE64 : deriveConstant eulerMinus2 64 = some (ascii "B7E151628AED2A6B") := by
  unfold deriveConstant
  rw [iterE64, truncate_decString]
  rfl

theorem deriveP32 : deriveConstant goldenRatioMinus1 32 = some (ascii "9E3779B9") := by
  unfold deriveConstant
  rw [iterP32, truncate_decString]
  rfl

theorem deriveP64 : deriveConstant goldenRatioMinus1 64 = some (ascii "9E3779B97F4A7C15") := by
  unfold deriveConstant
  rw [iterP64, truncate_decString]
  rfl

end BigNum

/-- C3: the magic-constant derivation of `BigNum::calc_magic_constants`
(`src/utils.rs`) — double the hard-coded decimal expansions of `e - 2` and
`golden_ratio - 1` `w` times, truncate to the integer part, convert to
binary, force the last bit to 1 and render as hex — produces, at the
claim's stated instances, `derive(32) = (0xB7E15163, 0x9E3779B9)` and
`derive(64) = (0xB7E151628AED2A6B, 0x9E3779B97F4A7C15)`: the first `w`
bits of the binary expansions of `(e-2)*2^w` and `(phi-1)*2^w`, forced odd
in the least significant bit. The doubling loop is verified against a
proved characterization of `BigNum::multiply` on dotted decimal strings
(`multiply_two_dec`), so each of the `w` iterations is the exact
algorithmic long multiplication of the source. -/
theorem c3_magic_constant_derivation :
    BigNum.calcMagicConstants 32 =
      (some (BigNum.ascii "B7E15163"), some (BigNum.ascii "9E3779B9")) ∧
    BigNum.calcMagicConstants 64 =
      (some (BigNum.ascii "B7E151628AED2A6B"), some (BigNum.ascii "9E3779B97F4A7C15")) := by
  unfold BigNum.calcMagicConstants
  rw [BigNum.deriveE32, BigNum.deriveP32, BigNum.deriveE64, BigNum.deriveP64]
  exact ⟨rfl, rfl⟩
